import Mathlib

/-!
CENTER backend (`src/backend/server.js`): shallow embedding and verified properties.

The Express handlers of `server.js` are embedded as pure functions over explicit state:
a collection (`List User`, `List Publication`) stands for a MongoDB collection, a list of
paths stands for the files present on disk, and the current time (`Date.now()`, in
milliseconds) is an argument of every handler that reads the clock.

A handler returns `Option Response` together with the new state: `none` means that the
handler threw (or its promise rejected) before any response was sent.

Library routines whose internals are not part of the repository are taken as parameters
(`Env`): JWT signing and verification, `String.prototype.toLowerCase`, string to number
conversion (unary plus, `parseFloat`, `parseInt`), `path.extname`, date parsing, and the
process-wide `BASE_URL`.
-/

set_option autoImplicit false

namespace Center

/-! ## JavaScript values -/

/-- A field of a parsed JSON request body, as seen after destructuring `req.body`.
`undefined` is an absent field. A number keeps its literal text: the handlers modelled here
only ever compare such a field against a string with `!==`. -/
inductive JsValue where
  | undefined
  | null
  | bool (b : Bool)
  | number (literal : String)
  | string (s : String)
  | object
deriving DecidableEq, Repr

/-- A JavaScript Number: `NaN`, the two infinities, or a finite value. -/
inductive JsNumber where
  | nan
  | posInf
  | negInf
  | finite (q : Rat)
deriving DecidableEq

/-- MongoDB ObjectIds are carried in their 24-digit hexadecimal string form, which is also the
form of `req.user.userId` and of `doc.userId.toString()`. -/
abbrev ObjectId := String

/-- Code points removed by `String.prototype.trim`: ECMAScript WhiteSpace and LineTerminator. -/
def isJsWhitespace (c : Char) : Bool :=
  c.val == 0x09 || c.val == 0x0A || c.val == 0x0B || c.val == 0x0C || c.val == 0x0D ||
  c.val == 0x20 || c.val == 0xA0 || c.val == 0x1680 ||
  (0x2000 ≤ c.val && c.val ≤ 0x200A) ||
  c.val == 0x2028 || c.val == 0x2029 || c.val == 0x202F || c.val == 0x205F ||
  c.val == 0x3000 || c.val == 0xFEFF

/-- The characters of `s.trim()`. -/
def trimChars (cs : List Char) : List Char :=
  ((cs.dropWhile isJsWhitespace).reverse.dropWhile isJsWhitespace).reverse

/-- The string `s.trim()`. -/
def jsTrim (s : String) : String := String.mk (trimChars s.data)

/-- Pieces of a character list cut at every occurrence of `sep`; `cur` holds, reversed,
the characters of the piece being read. -/
def splitCharsAux (sep : Char) : List Char → List Char → List (List Char)
  | [], cur => [cur.reverse]
  | c :: cs, cur =>
    if c == sep then cur.reverse :: splitCharsAux sep cs []
    else splitCharsAux sep cs (c :: cur)

/-- The array `s.split(sep)` for a one-character separator. -/
def jsSplit (s : String) (sep : Char) : List String :=
  (splitCharsAux sep s.data []).map String.mk

/-- Truthiness of a string: only the empty string is falsy. -/
def truthy (s : String) : Bool := s != ""

/-! ## Data model (the Mongoose schemas) -/

/-- The schema `userSchema`. An unset `otp` / `otpExpires` path reads as `undefined` and is
`none` here; `otpExpires` is a `Date`, carried as milliseconds since the epoch. -/
structure User where
  id : ObjectId
  email : String
  name : String
  password : String
  profileImage : String
  isVerified : Bool
  status : String
  otp : Option String
  otpExpires : Option Nat
deriving DecidableEq

/-- An entry of `publication.media`. -/
structure Media where
  type : String
  url : String
  filename : String
deriving DecidableEq

/-- The sub-document `publication.location`. -/
structure Location where
  latitude : JsNumber
  longitude : JsNumber
  address : Option String
  placeName : Option String
deriving DecidableEq

/-- An entry of `publication.comments`. -/
structure Comment where
  userId : ObjectId
  content : String
  createdAt : Nat
deriving DecidableEq

/-- The schema `publicationSchema`. -/
structure Publication where
  id : ObjectId
  userId : ObjectId
  content : String
  type : String
  media : List Media
  location : Option Location
  tags : List String
  category : Option String
  visibility : String
  likes : List ObjectId
  comments : List Comment
  isActive : Bool
  createdAt : Nat
  updatedAt : Nat
deriving DecidableEq

/-- A file received by multer: `mimetype`, `path` and `filename` of `req.files[i]`. -/
structure UploadedFile where
  mimetype : String
  path : String
  filename : String
deriving DecidableEq

/-- The schema `markerSchema`. Photos and videos are absolute URLs. -/
structure Marker where
  id : ObjectId
  userId : ObjectId
  latitude : JsNumber
  longitude : JsNumber
  title : String
  comment : String
  color : String
  photos : List String
  videos : List String
  createdAt : Nat
  updatedAt : Nat
deriving DecidableEq

/-- The schema `employeeSchema`. A date path is `none` when unset, else milliseconds since the
epoch. -/
structure Employee where
  id : ObjectId
  name : String
  email : String
  phone : String
  faceImage : String
  certificate : String
  startDate : Option Nat
  endDate : Option Nat
  certificateStartDate : Option Nat
  certificateEndDate : Option Nat
  createdAt : Nat
  updatedAt : Nat
deriving DecidableEq

/-! ## Environment: JWT library, string routines, configuration -/

/-- Which environment secret a token is signed or verified with:
`process.env.JWT_SECRET` or `process.env.JWT_REFRESH_SECRET`. -/
inductive Secret where
  | access
  | refresh
deriving DecidableEq

/-- The payload of a token: `{ userId, email }` for access tokens, `{ userId }` for refresh
tokens. -/
structure Identity where
  userId : ObjectId
  email : Option String
deriving DecidableEq

/-- What `jwt.verify` hands to its callback: the decoded payload, or an error whose `name`
is `TokenExpiredError`, `JsonWebTokenError` (with its `message`), or something else
(for instance `NotBeforeError`). -/
inductive VerifyResult where
  | ok (user : Identity)
  | tokenExpired
  | jsonWebTokenError (message : String)
  | otherError
deriving DecidableEq

/-- The routines and configuration the handlers rely on but do not define. -/
structure Env where
  /-- The constant `BASE_URL`. -/
  baseUrl : String
  /-- The call `jwt.sign(payload, secret, { expiresIn })` made at time `now` (ms);
  `expiresIn` is in seconds. -/
  jwtSign : Identity → Secret → Nat → Nat → String
  /-- The call `jwt.verify(token, secret, callback)` made at time `now` (ms). -/
  jwtVerify : String → Secret → Nat → VerifyResult
  /-- The method `String.prototype.toLowerCase`. -/
  toLowerCase : String → String
  /-- Conversion of a string to a Number by unary `+`. -/
  toNumber : String → JsNumber
  /-- The global function `parseFloat` on a string. -/
  parseFloat : String → JsNumber
  /-- The global function `parseInt` on a string (radix left out). -/
  parseInt : String → JsNumber
  /-- The function `path.extname`. -/
  extname : String → String
  /-- The constructor `new Date(string)`: milliseconds since the epoch, or `none` for an
  Invalid Date. -/
  parseDate : String → Option Nat

/-! ## Responses -/

/-- The `user` object of the verify-otp response. -/
structure UserView where
  email : String
  name : String
  profileImage : String
  status : String
deriving DecidableEq

/-- An HTTP response: the status (200 when the handler calls `res.json` directly) and the
fields of the JSON body that the modelled handlers may set. -/
structure Response where
  status : Nat
  message : String
  expired : Option Bool := none
  accessToken : Option String := none
  refreshToken : Option String := none
  user : Option UserView := none
  likesCount : Option Nat := none
  publication : Option Publication := none
  media : Option (List Media) := none
  marker : Option Marker := none
  employee : Option Employee := none
  comment : Option Comment := none
  comments : Option (List Comment) := none
deriving DecidableEq

/-! ## Collections -/

/-- The query `User.findOne({ email })` for a string `email`: the first stored document with
that email. -/
def User.findOne (users : List User) (email : String) : Option User :=
  users.find? (fun u => u.email == email)

/-- The query `User.findById(id)`. -/
def User.findById (users : List User) (id : ObjectId) : Option User :=
  users.find? (fun u => u.id == id)

/-- The write `user.save()` for a document loaded from the collection: the stored document
with the same `_id` is replaced. -/
def User.save (users : List User) (user : User) : List User :=
  users.map (fun u => if u.id == user.id then user else u)

/-! ## OTP challenge: `POST /api/auth/login` and `POST /api/auth/verify-otp` -/

/-- The function `generateOTP`: the decimal string of the integer drawn by
`crypto.randomInt(100000, 999999)`, here the argument `draw`. -/
def generateOTP (draw : Nat) : String := toString draw

/-- The test `user.otp !== otp` between the stored code (a string, or `undefined`) and the
submitted body field: strict inequality compares type and value. -/
def otpStrictNe (stored : Option String) (submitted : JsValue) : Bool :=
  match stored, submitted with
  | none, .undefined => false
  | some s, .string t => s != t
  | _, _ => true

/-- The test `Date.now() > user.otpExpires`: an unset expiry converts to `NaN`, and every
comparison with `NaN` is false. -/
def nowAfter (now : Nat) (expires : Option Nat) : Bool :=
  match expires with
  | none => false
  | some e => decide (e < now)

/-- The handler of `POST /api/auth/login` for body `{ email }` at time `now`. `draw` is the
integer drawn for the code; `mailSent` tells whether `transporter.sendMail` resolved (when it
rejects, the handler rejects after the user has been saved). -/
def login (users : List User) (email : String) (draw : Nat) (now : Nat) (mailSent : Bool) :
    Option Response × List User :=
  match User.findOne users email with
  | none => (some { status := 400, message := "Utilisateur non trouvé" }, users)
  | some user =>
    let otp := generateOTP draw
    let user := { user with otp := some otp, otpExpires := some (now + 10 * 60 * 1000) }
    let users := User.save users user
    if mailSent then (some { status := 200, message := "OTP envoyé" }, users)
    else (none, users)

/-- The handler of `POST /api/auth/verify-otp` for body `{ email, otp }` at time `now`. -/
def verifyOtp (env : Env) (users : List User) (email : String) (otp : JsValue) (now : Nat) :
    Option Response × List User :=
  match User.findOne users email with
  | none => (some { status := 400, message := "Utilisateur non trouvé" }, users)
  | some user =>
    if otpStrictNe user.otp otp || nowAfter now user.otpExpires then
      (some { status := 400, message := "OTP invalide ou expiré" }, users)
    else
      let accessToken :=
        env.jwtSign { userId := user.id, email := some user.email } Secret.access (15 * 60) now
      let refreshToken :=
        env.jwtSign { userId := user.id, email := none } Secret.refresh (7 * 24 * 60 * 60) now
      let user := { user with otp := none, otpExpires := none, isVerified := true }
      let users := User.save users user
      (some { status := 200, message := "Connexion réussie",
              accessToken := some accessToken, refreshToken := some refreshToken,
              user := some { email := user.email, name := user.name,
                             profileImage :=
                               if truthy user.profileImage then
                                 env.baseUrl ++ "/" ++ user.profileImage
                               else "",
                             status := user.status } },
       users)

/-! ## Access control middleware -/

/-- A database operation issued by a middleware. -/
inductive DbOp where
  | userFindById (id : ObjectId)
deriving DecidableEq

/-- What a middleware did with a request: the response it sent (if any), how many times it
called `next`, the value of `req.user` when it finished (`none` is `undefined`), and the
database operations it issued, in order. -/
structure MiddlewareResult where
  response : Option Response
  nextCalls : Nat
  user : Option Identity
  dbOps : List DbOp
deriving DecidableEq

/-- A middleware that answers with `status` and `message` and does not call `next`. -/
def MiddlewareResult.reject (status : Nat) (message : String) (user : Option Identity)
    (dbOps : List DbOp) : MiddlewareResult :=
  { response := some { status := status, message := message }, nextCalls := 0,
    user := user, dbOps := dbOps }

/-- The expression `authHeader.split(' ')[1]`: `none` is `undefined`. -/
def bearerToken (authHeader : String) : Option String := (jsSplit authHeader ' ')[1]?

/-- The middleware `verifyToken`. `authorization` is `req.headers['authorization']`
(`none` when the header is absent) and `now` the time at which `jwt.verify` runs. -/
def verifyToken (env : Env) (authorization : Option String) (now : Nat) : MiddlewareResult :=
  match authorization with
  | none =>
    MiddlewareResult.reject 401 "Token manquant - Header Authorization requis" none []
  | some authHeader =>
    if !truthy authHeader then
      MiddlewareResult.reject 401 "Token manquant - Header Authorization requis" none []
    else
      match bearerToken authHeader with
      | none =>
        MiddlewareResult.reject 401 "Token manquant ou invalide - Format: Bearer <token>" none []
      | some token =>
        if !truthy token || token == "null" then
          MiddlewareResult.reject 401 "Token manquant ou invalide - Format: Bearer <token>"
            none []
        else
          match env.jwtVerify token Secret.access now with
          | VerifyResult.tokenExpired =>
            { response := some { status := 403, message := "Token expiré", expired := some true },
              nextCalls := 0, user := none, dbOps := [] }
          | VerifyResult.jsonWebTokenError m =>
            MiddlewareResult.reject 403 ("Token invalide - " ++ m) none []
          | VerifyResult.otherError => MiddlewareResult.reject 403 "Token invalide" none []
          | VerifyResult.ok user =>
            { response := none, nextCalls := 1, user := some user, dbOps := [] }

/-- The middleware `verifyAdmin` (defined in the source, mounted on no route). -/
def verifyAdmin (users : List User) (reqUser : Identity) : MiddlewareResult :=
  match User.findById users reqUser.userId with
  | none =>
    MiddlewareResult.reject 403 "Accès refusé. Droits admin requis." (some reqUser)
      [DbOp.userFindById reqUser.userId]
  | some user =>
    if user.status != "admin" then
      MiddlewareResult.reject 403 "Accès refusé. Droits admin requis." (some reqUser)
        [DbOp.userFindById reqUser.userId]
    else
      { response := none, nextCalls := 1, user := some reqUser,
        dbOps := [DbOp.userFindById reqUser.userId] }

/-- The literal array `allowed` of `verifyCanCreateEmployees` and `verifyCanManageUsers`. -/
def allowed : List String := ["nyundumathryme@gmail", "nyundumathryme@gmail.com"]

/-- The common body of the two allowlist gates, which differ only in their message. -/
def allowlistGate (message : String) (env : Env) (users : List User) (reqUser : Identity) :
    MiddlewareResult :=
  match User.findById users reqUser.userId with
  | none => MiddlewareResult.reject 403 message (some reqUser) [DbOp.userFindById reqUser.userId]
  | some user =>
    if !allowed.contains (env.toLowerCase user.email) then
      MiddlewareResult.reject 403 message (some reqUser) [DbOp.userFindById reqUser.userId]
    else
      { response := none, nextCalls := 1, user := some reqUser,
        dbOps := [DbOp.userFindById reqUser.userId] }

/-- The middleware `verifyCanCreateEmployees`, mounted on every `/api/employees` route. -/
def verifyCanCreateEmployees : Env → List User → Identity → MiddlewareResult :=
  allowlistGate "Seul l\'admin principal peut créer des employés"

/-- The middleware `verifyCanManageUsers`, mounted on every `/api/users` route. -/
def verifyCanManageUsers : Env → List User → Identity → MiddlewareResult :=
  allowlistGate "Seul l\'admin principal peut gérer les utilisateurs"

/-! ## Publications -/

/-- The publications collection together with the files present under `__dirname`
(paths relative to it). -/
structure Store where
  publications : List Publication
  files : List String
deriving DecidableEq

/-- The query `Publication.findById(id)`. -/
def Publication.findById (pubs : List Publication) (id : ObjectId) : Option Publication :=
  pubs.find? (fun p => p.id == id)

/-- Schema validation run by `save()`: `content`, each media `url` and `filename` and each
comment `content` are required strings (an empty string fails `required`); `type`,
`visibility` and each media `type` must belong to their `enum`; a Number path rejects `NaN`.
Mongoose checks the required paths and the modified paths; checking every path, as here,
gives the same verdict on a document that was loaded from a collection of valid documents. -/
def Publication.valid (p : Publication) : Bool :=
  p.content != "" &&
  ["text", "photo", "video", "article", "event"].contains p.type &&
  p.media.all (fun m => ["image", "video"].contains m.type && m.url != "" && m.filename != "") &&
  ["public", "friends", "private"].contains p.visibility &&
  p.comments.all (fun c => c.content != "") &&
  (match p.location with
   | none => true
   | some l => l.latitude != JsNumber.nan && l.longitude != JsNumber.nan)

/-- The write `pub.save()` for a document loaded from the collection: `none` when validation
fails (the promise rejects and nothing is written). -/
def Publication.save (pubs : List Publication) (pub : Publication) : Option (List Publication) :=
  if pub.valid then some (pubs.map (fun p => if p.id == pub.id then pub else p)) else none

/-- The statement `if (fs.existsSync(p)) fs.unlinkSync(p)`. -/
def unlinkIfExists (files : List String) (p : String) : List String :=
  if files.contains p then files.filter (fun f => f != p) else files

/-- The path `path.join(__dirname, 'uploads/publications/', filename)`, relative to
`__dirname`, for a file name without separators (as generated by `publicationStorage`). -/
def publicationFilePath (filename : String) : String := "uploads/publications/" ++ filename

/-- The expression `path.replace(/\\/g, '/')`. -/
def slashes (path : String) : String :=
  path.map (fun c => if c == Char.ofNat 92 then '/' else c)

/-- The media entry built from an uploaded file in the create and update handlers. -/
def mediaOfFile (env : Env) (f : UploadedFile) : Media :=
  { type := if "image/".data.isPrefixOf f.mimetype.data then "image" else "video",
    url := env.baseUrl ++ "/" ++ slashes f.path,
    filename := f.filename }

/-- The expression `tags.split(',').map(t => t.trim()).filter(Boolean)`. -/
def parseTags (tags : String) : List String :=
  ((jsSplit tags ',').map jsTrim).filter truthy

/-- The text fields of a multipart `PUT /api/publications/:id` body (`none` is `undefined`)
and the files stored by `publicationUpload.array('media', 10)`. -/
structure PublicationUpdate where
  content : Option String
  latitude : Option String
  longitude : Option String
  address : Option String
  placeName : Option String
  tags : Option String
  category : Option String
  visibility : Option String
  files : List UploadedFile

/-- The assignments of the `PUT /api/publications/:id` handler to the loaded document. -/
def applyUpdate (env : Env) (pub : Publication) (body : PublicationUpdate) (now : Nat) :
    Publication :=
  let pub := match body.content with
    | some content => { pub with content := jsTrim content }
    | none => pub
  let pub := { pub with media := pub.media ++ body.files.map (mediaOfFile env) }
  let pub := match body.latitude, body.longitude with
    | some latitude, some longitude =>
      if truthy latitude && truthy longitude then
        { pub with location := some { latitude := env.toNumber latitude,
                                      longitude := env.toNumber longitude,
                                      address := body.address,
                                      placeName := body.placeName } }
      else pub
    | _, _ => pub
  let pub := match body.tags with
    | some tags => { pub with tags := parseTags tags }
    | none => pub
  let pub := match body.category with
    | some category => { pub with category := some category }
    | none => pub
  let pub := match body.visibility with
    | some visibility => { pub with visibility := visibility }
    | none => pub
  { pub with updatedAt := now }

/-- The response `403 Accès refusé` of the publication handlers. -/
def accessDenied : Response := { status := 403, message := "Accès refusé" }

/-- The handler of `PUT /api/publications/:id`, run after `verifyToken` (which set
`req.user.userId` to `caller`) and after multer. The populated owner fields of the response
are left out. -/
def updatePublication (env : Env) (store : Store) (id : ObjectId) (caller : ObjectId)
    (body : PublicationUpdate) (now : Nat) : Option Response × Store :=
  match Publication.findById store.publications id with
  | none => (some accessDenied, store)
  | some pub =>
    if pub.userId != caller then (some accessDenied, store)
    else
      let pub := applyUpdate env pub body now
      match Publication.save store.publications pub with
      | none => (none, store)
      | some pubs =>
        (some { status := 200, message := "Mise à jour OK", publication := some pub },
         { store with publications := pubs })

/-- The handler of `DELETE /api/publications/:id`. -/
def deletePublication (store : Store) (id : ObjectId) (caller : ObjectId) :
    Option Response × Store :=
  match Publication.findById store.publications id with
  | none => (some accessDenied, store)
  | some pub =>
    if pub.userId != caller then (some accessDenied, store)
    else
      let files := pub.media.foldl
        (fun fs m => unlinkIfExists fs (publicationFilePath m.filename)) store.files
      let pub := { pub with isActive := false }
      match Publication.save store.publications pub with
      | none => (none, { store with files := files })
      | some pubs =>
        (some { status := 200, message := "Publication supprimée" },
         { publications := pubs, files := files })

/-- The test `idx < n` for a Number `idx` and an array length or literal `n`. -/
def JsNumber.ltNat (idx : JsNumber) (n : Nat) : Bool :=
  match idx with
  | JsNumber.nan => false
  | JsNumber.posInf => false
  | JsNumber.negInf => true
  | JsNumber.finite q => decide (q < (n : Rat))

/-- The test `idx >= n` for a Number `idx` and an array length `n`. -/
def JsNumber.geNat (idx : JsNumber) (n : Nat) : Bool :=
  match idx with
  | JsNumber.nan => false
  | JsNumber.posInf => true
  | JsNumber.negInf => false
  | JsNumber.finite q => decide ((n : Rat) ≤ q)

/-- The array element `xs[idx]` for a Number `idx`: defined only when `idx` is a
non-negative integer below the length (`none` is `undefined`). -/
def elementAt {α : Type} (xs : List α) (idx : JsNumber) : Option (Nat × α) :=
  match idx with
  | JsNumber.finite q =>
    if q.den = 1 ∧ 0 ≤ q.num then (xs[q.num.toNat]?).map (fun x => (q.num.toNat, x)) else none
  | _ => none

/-- The handler of `DELETE /api/publications/:id/media/:mediaIndex`. Reading `pub.userId`
of a missing publication, or `.filename` of a missing array element, throws. -/
def deletePublicationMedia (env : Env) (store : Store) (id : ObjectId) (caller : ObjectId)
    (mediaIndex : String) (now : Nat) : Option Response × Store :=
  match Publication.findById store.publications id with
  | none => (none, store)
  | some pub =>
    if pub.userId != caller then (some accessDenied, store)
    else
      let idx := env.toNumber mediaIndex
      if idx.ltNat 0 || idx.geNat pub.media.length then
        (some { status := 400, message := "Index invalide" }, store)
      else
        match elementAt pub.media idx with
        | none => (none, store)
        | some (i, m) =>
          let files := unlinkIfExists store.files (publicationFilePath m.filename)
          let pub := { pub with media := pub.media.eraseIdx i, updatedAt := now }
          match Publication.save store.publications pub with
          | none => (none, { store with files := files })
          | some pubs =>
            (some { status := 200, message := "Média supprimé", media := some pub.media },
             { publications := pubs, files := files })

/-- The call `likes.indexOf(userId)` on the Mongoose array: the position of the first entry
equal to `userId`; `none` stands for `-1`. -/
def indexOf (likes : List ObjectId) (userId : ObjectId) : Option Nat :=
  match likes with
  | [] => none
  | x :: rest => if x == userId then some 0 else (indexOf rest userId).map (fun i => i + 1)

/-- The update of `pub.likes` in the like handler: `splice(index, 1)` when the caller is
found, `push(userId)` otherwise. -/
def toggleLike (likes : List ObjectId) (userId : ObjectId) : List ObjectId :=
  match indexOf likes userId with
  | some index => likes.eraseIdx index
  | none => likes ++ [userId]

/-- The handler of `POST /api/publications/:id/like`. A missing publication makes
`pub.likes` throw. -/
def likePublication (pubs : List Publication) (id : ObjectId) (caller : ObjectId) :
    Option Response × List Publication :=
  match Publication.findById pubs id with
  | none => (none, pubs)
  | some pub =>
    let index := indexOf pub.likes caller
    let pub := { pub with likes := toggleLike pub.likes caller }
    match Publication.save pubs pub with
    | none => (none, pubs)
    | some pubs =>
      (some { status := 200, message := if index.isSome then "Like retiré" else "Liké",
              likesCount := some pub.likes.length },
       pubs)

/-- The sequence of `POST /api/publications/:id/like` requests `reqs` (publication id, caller),
handled one after the other: the resulting collection. -/
def runLikes (pubs : List Publication) (reqs : List (ObjectId × ObjectId)) : List Publication :=
  reqs.foldl (fun s r => (likePublication s r.1 r.2).2) pubs

/-! ## Publications: create, read, list, comment -/

/-- Truthiness of a Number: `NaN` and zero are falsy. -/
def JsNumber.truthy (n : JsNumber) : Bool :=
  match n with
  | JsNumber.nan => false
  | JsNumber.finite q => q != 0
  | _ => true

/-- Truthiness of a text field that may be absent (`undefined` is falsy). -/
def optTruthy (field : Option String) : Bool :=
  match field with
  | none => false
  | some s => truthy s

/-- The response `500 Erreur serveur` of the `catch` blocks. -/
def serverError : Response := { status := 500, message := "Erreur serveur" }

/-- The text fields of a `POST /api/publications` body (`none` is `undefined`) and the files
stored by `publicationUpload.array('media', 10)`. -/
structure PublicationCreate where
  content : Option String
  type : Option String
  latitude : Option String
  longitude : Option String
  address : Option String
  placeName : Option String
  tags : Option String
  category : Option String
  visibility : Option String
  files : List UploadedFile

/-- The document built by `new Publication({ ... })` in the create handler from a body whose
`content` is `content`; `newId` is the generated `_id`, and the schema defaults fill `likes`,
`comments`, `isActive`, `createdAt` and `updatedAt`. -/
def newPublication (env : Env) (caller : ObjectId) (content : String) (body : PublicationCreate)
    (newId : ObjectId) (now : Nat) : Publication :=
  { id := newId
    userId := caller
    content := jsTrim content
    type := if optTruthy body.type then body.type.getD "" else "text"
    media := body.files.map (mediaOfFile env)
    location :=
      match body.latitude, body.longitude with
      | some latitude, some longitude =>
        if truthy latitude && truthy longitude then
          some { latitude := env.toNumber latitude, longitude := env.toNumber longitude,
                 address := body.address, placeName := body.placeName }
        else none
      | _, _ => none
    tags := match body.tags with
      | some tags => if truthy tags then parseTags tags else []
      | none => []
    category := body.category
    visibility := if optTruthy body.visibility then body.visibility.getD "" else "public"
    likes := []
    comments := []
    isActive := true
    createdAt := now
    updatedAt := now }

/-- The handler of `POST /api/publications`, run after `verifyToken` and multer. The handler
has no `try`: a failed validation in `save()` makes it throw. The populated owner fields of
the response are left out. -/
def createPublication (env : Env) (pubs : List Publication) (caller : ObjectId)
    (body : PublicationCreate) (newId : ObjectId) (now : Nat) :
    Option Response × List Publication :=
  match body.content with
  | none => (some { status := 400, message := "Contenu requis" }, pubs)
  | some content =>
    if !truthy (jsTrim content) then (some { status := 400, message := "Contenu requis" }, pubs)
    else
      let pub := newPublication env caller content body newId now
      if pub.valid then
        (some { status := 201, message := "Publication créée", publication := some pub },
         pubs ++ [pub])
      else (none, pubs)

/-- The handler of `GET /api/publications/:id`. The body of the 200 response has no `message`
(it is empty here). -/
def getPublication (pubs : List Publication) (id : ObjectId) : Option Response :=
  match Publication.findById pubs id with
  | none => some { status := 404, message := "Non trouvée" }
  | some pub =>
    if !pub.isActive then some { status := 404, message := "Non trouvée" }
    else some { status := 200, message := "", publication := some pub }

/-- The handler of `GET /api/publications/:id/comments` (owner fields of the comments are
left out). -/
def getComments (pubs : List Publication) (id : ObjectId) : Option Response :=
  match Publication.findById pubs id with
  | none => some { status := 404, message := "Publication non trouvée" }
  | some pub =>
    if !pub.isActive then some { status := 404, message := "Publication non trouvée" }
    else some { status := 200, message := "", comments := some pub.comments }

/-- The handler of `POST /api/publications/:id/comments` for a body whose `content` is a
string or absent. -/
def addComment (pubs : List Publication) (id : ObjectId) (caller : ObjectId)
    (content : Option String) (now : Nat) : Option Response × List Publication :=
  match content with
  | none => (some { status := 400, message := "Commentaire requis" }, pubs)
  | some content =>
    if !truthy (jsTrim content) then
      (some { status := 400, message := "Commentaire requis" }, pubs)
    else
      match Publication.findById pubs id with
      | none => (some { status := 404, message := "Publication non trouvée" }, pubs)
      | some pub =>
        if !pub.isActive then (some { status := 404, message := "Publication non trouvée" }, pubs)
        else
          let comment : Comment :=
            { userId := caller, content := jsTrim content, createdAt := now }
          let pub := { pub with comments := pub.comments ++ [comment] }
          match Publication.save pubs pub with
          | none => (none, pubs)
          | some pubs =>
            (some { status := 201, message := "Commentaire ajouté", comment := some comment },
             pubs)

/-- The value of `+req.query.x || dflt`: the query parameter converted by unary plus
(`undefined` converts to `NaN`), replaced by the default when falsy. -/
def queryNumber (env : Env) (param : Option String) (dflt : Nat) : JsNumber :=
  match param with
  | none => JsNumber.finite dflt
  | some s => if (env.toNumber s).truthy then env.toNumber s else JsNumber.finite dflt

/-- A Number that is a non-negative integer, as a natural number. -/
def JsNumber.toNat? (n : JsNumber) : Option Nat :=
  match n with
  | JsNumber.finite q => if q.den = 1 ∧ 0 ≤ q.num then some q.num.toNat else none
  | _ => none

/-- The order of `.sort({ createdAt: -1 })`: newest first. Documents with the same `createdAt`
keep their order in the collection. -/
def sortNewestFirst (pubs : List Publication) : List Publication :=
  pubs.insertionSort (fun a b => b.createdAt ≤ a.createdAt)

/-- The value of `Math.ceil(total / limit)` for a positive integer `limit`. -/
def ceilDiv (total limit : Nat) : Nat := (total + limit - 1) / limit

/-- The body of the `GET /api/publications` response. -/
structure PublicationPage where
  publications : List Publication
  currentPage : Nat
  totalPages : Nat
  total : Nat
deriving DecidableEq

/-- The handler of `GET /api/publications` for the query parameters `page` and `limit`
(`none` when absent). The query `find({ isActive: true }).sort(...).skip(skip).limit(limit)`
is modelled for a page and a limit that are positive integers (neither can be zero, which is
falsy and replaced by the default); for any other Number the outcome depends on the database
driver and is `none` here. Populated fields are left out. -/
def listPublications (env : Env) (pubs : List Publication) (page limit : Option String) :
    Option PublicationPage :=
  match (queryNumber env page 1).toNat?, (queryNumber env limit 20).toNat? with
  | some page, some limit =>
    let skip := (page - 1) * limit
    let active := pubs.filter (fun p => p.isActive)
    some { publications := ((sortNewestFirst active).drop skip).take limit
           currentPage := page
           totalPages := ceilDiv active.length limit
           total := active.length }
  | _, _ => none

/-- Following the claim: the query parameter `param` denotes the number `n`, where a missing,
zero or non-numeric parameter denotes the default and any other parameter must convert to the
positive integer `n`. -/
def denotes (env : Env) (param : Option String) (dflt n : Nat) : Prop :=
  (param = none ∧ n = dflt) ∨
  ∃ s, param = some s ∧
    (((env.toNumber s = JsNumber.nan ∨ env.toNumber s = JsNumber.finite 0) ∧ n = dflt) ∨
     (env.toNumber s = JsNumber.finite (n : Rat) ∧ 1 ≤ n))

/-! ## Markers -/

/-- A coordinate field of a create-marker body: absent, a string (multipart text field or JSON
string) or a JSON number. -/
inductive Field where
  | absent
  | text (s : String)
  | number (n : JsNumber)
deriving DecidableEq

/-- Truthiness of a coordinate field. -/
def Field.truthy (field : Field) : Bool :=
  match field with
  | Field.absent => false
  | Field.text s => Center.truthy s
  | Field.number n => n.truthy

/-- The call `parseFloat(field)`: a string is parsed; a Number is converted to its string
form and parsed back, which returns the Number. -/
def Field.parseFloat (env : Env) (field : Field) : JsNumber :=
  match field with
  | Field.absent => JsNumber.nan
  | Field.text s => env.parseFloat s
  | Field.number n => n

/-- The markers collection together with the files present under `__dirname`. -/
structure MarkerStore where
  markers : List Marker
  files : List String
deriving DecidableEq

/-- The query `Marker.findById(id)`. -/
def Marker.findById (markers : List Marker) (id : ObjectId) : Option Marker :=
  markers.find? (fun m => m.id == id)

/-- Schema validation of a marker: `latitude` and `longitude` are required Numbers (`NaN`
fails the cast) and `title` is a required string (the empty string fails `required`). -/
def Marker.valid (m : Marker) : Bool :=
  m.latitude != JsNumber.nan && m.longitude != JsNumber.nan && m.title != ""

/-- The write `marker.save()` for a document loaded from the collection; `none` when
validation fails. -/
def Marker.save (markers : List Marker) (marker : Marker) : Option (List Marker) :=
  if marker.valid then some (markers.map (fun m => if m.id == marker.id then marker else m))
  else none

/-- The write `Marker.findByIdAndDelete(id)`; `_id` is unique in a collection, so no document
with that id is left. -/
def Marker.findByIdAndDelete (markers : List Marker) (id : ObjectId) : List Marker :=
  markers.filter (fun m => m.id != id)

/-- The URL stored for an uploaded marker file. -/
def fileUrl (env : Env) (f : UploadedFile) : String := env.baseUrl ++ "/" ++ slashes f.path

/-- The characters of `s.replace(pattern, '')` for a string pattern: the first occurrence of
the pattern is removed. -/
def removeFirstChars (pattern : List Char) : List Char → List Char
  | [] => []
  | c :: cs =>
    if pattern.isPrefixOf (c :: cs) then (c :: cs).drop pattern.length
    else c :: removeFirstChars pattern cs

/-- The path `url.replace(BASE_URL + '/', '')`, also the file `path.join(__dirname, ...)` of
it written relative to `__dirname` (for a path in normal form, as multer produces it). -/
def mediaPath (env : Env) (url : String) : String :=
  String.mk (removeFirstChars (env.baseUrl ++ "/").data url.data)

/-- The body of `POST /api/markers`: the coordinates, the text fields (`none` is `undefined`)
and the files stored by `markerUpload.fields`. -/
structure MarkerCreate where
  latitude : Field
  longitude : Field
  title : Option String
  comment : Option String
  color : Option String
  photos : List UploadedFile
  videos : List UploadedFile

/-- The document built by `new Marker({ ... })` in the create handler. -/
def newMarker (env : Env) (caller : ObjectId) (body : MarkerCreate) (newId : ObjectId)
    (now : Nat) : Marker :=
  { id := newId
    userId := caller
    latitude := body.latitude.parseFloat env
    longitude := body.longitude.parseFloat env
    title := jsTrim (body.title.getD "")
    comment := match body.comment with
      | some comment => jsTrim comment
      | none => ""
    color := if optTruthy body.color then body.color.getD "" else "#FF0000"
    photos := body.photos.map (fileUrl env)
    videos := body.videos.map (fileUrl env)
    createdAt := now
    updatedAt := now }

/-- The handler of `POST /api/markers`. A failed validation in `save()` is caught and
answered with 500. The populated owner fields of the response are left out. -/
def createMarker (env : Env) (store : MarkerStore) (caller : ObjectId) (body : MarkerCreate)
    (newId : ObjectId) (now : Nat) : Option Response × MarkerStore :=
  if !body.latitude.truthy || !body.longitude.truthy || !optTruthy body.title then
    (some { status := 400, message := "Latitude, longitude et titre requis" }, store)
  else
    let marker := newMarker env caller body newId now
    if marker.valid then
      (some { status := 201, message := "Marqueur créé", marker := some marker },
       { store with markers := store.markers ++ [marker] })
    else (some serverError, store)

/-- The handler of `GET /api/markers/:id`. -/
def getMarker (markers : List Marker) (id : ObjectId) : Option Response :=
  match Marker.findById markers id with
  | none => some { status := 404, message := "Marqueur non trouvé" }
  | some marker => some { status := 200, message := "", marker := some marker }

/-- The text fields of a `PUT /api/markers/:id` body and the files stored by multer. -/
structure MarkerUpdate where
  title : Option String
  comment : Option String
  color : Option String
  photos : List UploadedFile
  videos : List UploadedFile

/-- The assignments of the `PUT /api/markers/:id` handler to the loaded document. -/
def applyMarkerUpdate (env : Env) (marker : Marker) (body : MarkerUpdate) (now : Nat) : Marker :=
  let marker := match body.title with
    | some title => { marker with title := jsTrim title }
    | none => marker
  let marker := match body.comment with
    | some comment => { marker with comment := jsTrim comment }
    | none => marker
  let marker := match body.color with
    | some color => { marker with color := color }
    | none => marker
  let marker := { marker with photos := marker.photos ++ body.photos.map (fileUrl env) }
  let marker := { marker with videos := marker.videos ++ body.videos.map (fileUrl env) }
  { marker with updatedAt := now }

/-- The handler of `PUT /api/markers/:id`. -/
def updateMarker (env : Env) (store : MarkerStore) (id : ObjectId) (caller : ObjectId)
    (body : MarkerUpdate) (now : Nat) : Option Response × MarkerStore :=
  match Marker.findById store.markers id with
  | none => (some { status := 404, message := "Marqueur non trouvé" }, store)
  | some marker =>
    if marker.userId != caller then (some accessDenied, store)
    else
      let marker := applyMarkerUpdate env marker body now
      match Marker.save store.markers marker with
      | none => (some serverError, store)
      | some markers =>
        (some { status := 200, message := "Marqueur mis à jour", marker := some marker },
         { store with markers := markers })

/-- The two `forEach` loops of the delete handler: each referenced file is removed if it
exists. -/
def unlinkAll (env : Env) (files : List String) (urls : List String) : List String :=
  urls.foldl (fun fs url => unlinkIfExists fs (mediaPath env url)) files

/-- The handler of `DELETE /api/markers/:id`. -/
def deleteMarker (env : Env) (store : MarkerStore) (id : ObjectId) (caller : ObjectId) :
    Option Response × MarkerStore :=
  match Marker.findById store.markers id with
  | none => (some { status := 404, message := "Marqueur non trouvé" }, store)
  | some marker =>
    if marker.userId != caller then (some accessDenied, store)
    else
      let files := unlinkAll env (unlinkAll env store.files marker.photos) marker.videos
      (some { status := 200, message := "Marqueur supprimé" },
       { markers := Marker.findByIdAndDelete store.markers id, files := files })

/-- The test `idx >= 0 && idx < n` of the marker media handler. -/
def JsNumber.inRange (idx : JsNumber) (n : Nat) : Bool := idx.geNat 0 && idx.ltNat n

/-- The branch of the marker media handler that removes entry `idx` of `urls`: the new list
and the new files; `none` when reading the entry throws (caught by the handler). -/
def detachUrl (env : Env) (files : List String) (urls : List String) (idx : JsNumber) :
    Option (List String × List String) :=
  match elementAt urls idx with
  | none => none
  | some (i, url) => some (urls.eraseIdx i, unlinkIfExists files (mediaPath env url))

/-- The handler of `DELETE /api/markers/:id/media/:type/:index`. -/
def deleteMarkerMedia (env : Env) (store : MarkerStore) (id : ObjectId) (caller : ObjectId)
    (type index : String) (now : Nat) : Option Response × MarkerStore :=
  match Marker.findById store.markers id with
  | none => (some { status := 404, message := "Marqueur non trouvé" }, store)
  | some marker =>
    if marker.userId != caller then (some accessDenied, store)
    else
      let idx := env.parseInt index
      let detached : Option (Option (Marker × List String)) :=
        if type == "photo" && idx.inRange marker.photos.length then
          some ((detachUrl env store.files marker.photos idx).map
            (fun r => ({ marker with photos := r.1 }, r.2)))
        else if type == "video" && idx.inRange marker.videos.length then
          some ((detachUrl env store.files marker.videos idx).map
            (fun r => ({ marker with videos := r.1 }, r.2)))
        else none
      match detached with
      | none => (some { status := 400, message := "Type ou index invalide" }, store)
      | some none => (some serverError, store)
      | some (some (marker, files)) =>
        let marker := { marker with updatedAt := now }
        match Marker.save store.markers marker with
        | none => (some serverError, { store with files := files })
        | some markers =>
          (some { status := 200, message := "Média supprimé", marker := some marker },
           { markers := markers, files := files })

/-! ## Employees -/

/-- The employees collection together with the files present under `__dirname`. -/
structure EmployeeStore where
  employees : List Employee
  files : List String
deriving DecidableEq

/-- The query `Employee.findById(id)`. -/
def Employee.findById (employees : List Employee) (id : ObjectId) : Option Employee :=
  employees.find? (fun e => e.id == id)

/-- Schema validation of an employee: `name`, `email` and `phone` are required strings. -/
def Employee.valid (e : Employee) : Bool := e.name != "" && e.email != "" && e.phone != ""

/-- Whether writing `e` respects the unique index on `email`: no other document has it. -/
def Employee.emailFree (employees : List Employee) (e : Employee) : Bool :=
  employees.all (fun x => x.id == e.id || x.email != e.email)

/-- The write `employee.save()` for a new document; `none` when validation or the unique
index fails. -/
def Employee.insert (employees : List Employee) (e : Employee) : Option (List Employee) :=
  if e.valid && Employee.emailFree employees e then some (employees ++ [e]) else none

/-- The write `employee.save()` for a document loaded from the collection. -/
def Employee.save (employees : List Employee) (e : Employee) : Option (List Employee) :=
  if e.valid && Employee.emailFree employees e then
    some (employees.map (fun x => if x.id == e.id then e else x))
  else none

/-- The fields of a multipart employee body (`none` is `undefined`). `files` is `req.files`:
`none` when the request is not multipart (multer then leaves `req.files` undefined), else the
first `faceImage` file and the first `certificate` file, if any. -/
structure EmployeeBody where
  name : Option String
  email : Option String
  phone : Option String
  startDate : Option String
  endDate : Option String
  certificateStartDate : Option String
  certificateEndDate : Option String
  files : Option (Option UploadedFile × Option UploadedFile)

/-- The expression `d ? new Date(d) : undefined`: `some none` is `undefined`, `none` an
Invalid Date (which fails the cast when the document is saved). -/
def dateField (env : Env) (d : Option String) : Option (Option Nat) :=
  match d with
  | none => some none
  | some s => if truthy s then (env.parseDate s).map some else some none

/-- The expression `file?.path.replace(/\\/g, '/') || ''`. -/
def storedPath (file : Option UploadedFile) : String :=
  match file with
  | none => ""
  | some f => slashes f.path

/-- The object `employeeWithUrls` of the responses. -/
def employeeWithUrls (env : Env) (e : Employee) : Employee :=
  { e with
    faceImage := if truthy e.faceImage then env.baseUrl ++ "/" ++ e.faceImage else ""
    certificate := if truthy e.certificate then env.baseUrl ++ "/" ++ e.certificate else "" }

/-- The handler of `POST /api/employees`, run after the gate and multer. The notification
mail sent after the response is left out. -/
def createEmployee (env : Env) (employees : List Employee) (body : EmployeeBody)
    (newId : ObjectId) (now : Nat) : Option Response × List Employee :=
  match body.name, body.email, body.phone with
  | some name, some email, some phone =>
    if !truthy name || !truthy email || !truthy phone then
      (some { status := 400, message := "Champs requis" }, employees)
    else if (employees.find? (fun e => e.email == email)).isSome then
      (some { status := 400, message := "Email déjà utilisé" }, employees)
    else
      let failed : Option Response × List Employee :=
        (some { status := 500, message := "Erreur serveur lors de la création" }, employees)
      match body.files, dateField env body.startDate, dateField env body.endDate,
        dateField env body.certificateStartDate, dateField env body.certificateEndDate with
      | some files, some startDate, some endDate, some certificateStartDate,
        some certificateEndDate =>
        let employee : Employee :=
          { id := newId, name := jsTrim name, email := jsTrim email, phone := jsTrim phone,
            faceImage := storedPath files.1, certificate := storedPath files.2,
            startDate := startDate, endDate := endDate,
            certificateStartDate := certificateStartDate,
            certificateEndDate := certificateEndDate,
            createdAt := now, updatedAt := now }
        match Employee.insert employees employee with
        | none => failed
        | some employees =>
          (some { status := 200, message := "Employé créé",
                  employee := some (employeeWithUrls env employee) }, employees)
      | _, _, _, _, _ => failed
  | _, _, _ => (some { status := 400, message := "Champs requis" }, employees)

/-- The assignment `if (d) employee.x = new Date(d)`: the new value of the path, `none` for an
Invalid Date. -/
def updatedDate (env : Env) (current : Option Nat) (d : Option String) : Option (Option Nat) :=
  if optTruthy d then (env.parseDate (d.getD "")).map some else some current

/-- The replacement of a stored file by an uploaded one: the old file is removed if its path
is set and it exists. Returns the new path and the new files. -/
def replaceFile (files : List String) (current : String) (upload : Option UploadedFile) :
    String × List String :=
  match upload with
  | none => (current, files)
  | some f =>
    (slashes f.path, if truthy current then unlinkIfExists files current else files)

/-- The handler of `PUT /api/employees/:id`. -/
def updateEmployee (env : Env) (store : EmployeeStore) (id : ObjectId) (body : EmployeeBody)
    (now : Nat) : Option Response × EmployeeStore :=
  match Employee.findById store.employees id with
  | none => (some { status := 404, message := "Employé non trouvé" }, store)
  | some employee =>
    let failed : Response :=
      { status := 500, message := "Erreur serveur lors de la mise à jour" }
    match body.files with
    | none => (some failed, store)
    | some uploads =>
      let face := replaceFile store.files employee.faceImage uploads.1
      let cert := replaceFile face.2 employee.certificate uploads.2
      match updatedDate env employee.startDate body.startDate,
        updatedDate env employee.endDate body.endDate,
        updatedDate env employee.certificateStartDate body.certificateStartDate,
        updatedDate env employee.certificateEndDate body.certificateEndDate with
      | some startDate, some endDate, some certificateStartDate, some certificateEndDate =>
        let employee : Employee :=
          { employee with
            name := if optTruthy body.name then jsTrim (body.name.getD "") else employee.name
            email := if optTruthy body.email then jsTrim (body.email.getD "") else employee.email
            phone := if optTruthy body.phone then jsTrim (body.phone.getD "") else employee.phone
            startDate := startDate, endDate := endDate,
            certificateStartDate := certificateStartDate,
            certificateEndDate := certificateEndDate,
            faceImage := face.1, certificate := cert.1, updatedAt := now }
        match Employee.save store.employees employee with
        | none => (some failed, { store with files := cert.2 })
        | some employees =>
          (some { status := 200, message := "Employé mis à jour",
                  employee := some (employeeWithUrls env employee) },
           { employees := employees, files := cert.2 })
      | _, _, _, _ => (some failed, { store with files := cert.2 })

/-- The handler of `DELETE /api/employees/:id`. -/
def deleteEmployee (store : EmployeeStore) (id : ObjectId) : Option Response × EmployeeStore :=
  match Employee.findById store.employees id with
  | none => (some { status := 404, message := "Employé non trouvé" }, store)
  | some employee =>
    let files :=
      if truthy employee.faceImage then unlinkIfExists store.files employee.faceImage
      else store.files
    let files :=
      if truthy employee.certificate then unlinkIfExists files employee.certificate else files
    (some { status := 200, message := "Employé supprimé" },
     { employees := store.employees.filter (fun e => e.id != id), files := files })

/-! ## Users: account removal and status -/

/-- The users collection together with the files present under `__dirname`. -/
structure UserStore where
  users : List User
  files : List String
deriving DecidableEq

/-- The write `User.findByIdAndDelete(id)`; `_id` is unique in a collection. -/
def User.findByIdAndDelete (users : List User) (id : ObjectId) : List User :=
  users.filter (fun u => u.id != id)

/-- The handler of `DELETE /api/user/delete-account`, run after `verifyToken` set
`req.user.userId` to `caller`. -/
def deleteAccount (store : UserStore) (caller : ObjectId) : Option Response × UserStore :=
  (some { status := 200, message := "Compte supprimé" },
   { store with users := User.findByIdAndDelete store.users caller })

/-- The handler of `DELETE /api/users/:id`, run after `verifyToken` and
`verifyCanManageUsers`. -/
def deleteUser (env : Env) (store : UserStore) (id : ObjectId) : Option Response × UserStore :=
  match User.findById store.users id with
  | none => (some { status := 404, message := "Utilisateur non trouvé" }, store)
  | some user =>
    if allowed.contains (env.toLowerCase user.email) then
      (some { status := 403, message := "Impossible de supprimer l\'admin principal" }, store)
    else
      let files :=
        if truthy user.profileImage then unlinkIfExists store.files user.profileImage
        else store.files
      (some { status := 200, message := "Utilisateur supprimé" },
       { users := User.findByIdAndDelete store.users id, files := files })

/-- The handler of `PUT /api/users/:id/status` for a body whose `status` is a string or absent
(the user document of the response is left out). -/
def updateUserStatus (env : Env) (users : List User) (id : ObjectId) (status : Option String) :
    Option Response × List User :=
  match status with
  | none => (some { status := 400, message := "Statut invalide" }, users)
  | some status =>
    if !(["active", "blocked", "admin"].contains status) then
      (some { status := 400, message := "Statut invalide" }, users)
    else
      match User.findById users id with
      | none => (some { status := 404, message := "Utilisateur non trouvé" }, users)
      | some user =>
        if allowed.contains (env.toLowerCase user.email) then
          (some { status := 403, message := "Impossible de modifier l\'admin principal" }, users)
        else
          (some { status := 200, message := "Statut mis à jour" },
           User.save users { user with status := status })

/-! ## Upload file filters -/

/-- What a multer `fileFilter` reads of the incoming file. -/
structure IncomingFile where
  originalname : String
  mimetype : String
deriving DecidableEq

/-- The array `allowedMimes` of the profile image filter. -/
def upload.allowedMimes : List String :=
  ["image/jpeg", "image/jpg", "image/png", "image/gif",
   "image/webp", "image/bmp", "image/tiff", "image/svg+xml"]

/-- The array `allowedExtensions` of the profile image filter. -/
def upload.allowedExtensions : List String :=
  [".jpg", ".jpeg", ".png", ".gif", ".webp", ".bmp", ".tiff", ".svg"]

/-- The `fileFilter` of `upload` (profile images): `true` when the file is accepted. -/
def upload.fileFilter (env : Env) (file : IncomingFile) : Bool :=
  upload.allowedMimes.contains file.mimetype ||
    upload.allowedExtensions.contains (env.toLowerCase (env.extname file.originalname))

/-- The array `allowed` of the employee document filter. -/
def employeeUpload.allowed : List String :=
  ["image/jpeg", "image/jpg", "image/png", "image/gif", "image/webp", "application/pdf"]

/-- The literal array of extensions of the employee document filter. -/
def employeeUpload.extensions : List String :=
  [".pdf", ".jpg", ".jpeg", ".png", ".gif", ".webp"]

/-- The `fileFilter` of `employeeUpload`. -/
def employeeUpload.fileFilter (env : Env) (file : IncomingFile) : Bool :=
  employeeUpload.allowed.contains file.mimetype ||
    employeeUpload.extensions.contains (env.toLowerCase (env.extname file.originalname))

/-- The array `allowed` of the publication media filter and of the marker media filter. -/
def publicationUpload.allowed : List String :=
  ["image/jpeg", "image/jpg", "image/png", "image/gif", "image/webp",
   "video/mp4", "video/avi", "video/mov", "video/wmv", "video/flv", "video/webm", "video/mkv"]

/-- The `fileFilter` of `publicationUpload`: only the declared content type is read. -/
def publicationUpload.fileFilter (file : IncomingFile) : Bool :=
  publicationUpload.allowed.contains file.mimetype

/-- The `fileFilter` of `markerUpload`, whose `allowed` array has the same entries. -/
def markerUpload.fileFilter (file : IncomingFile) : Bool :=
  publicationUpload.allowed.contains file.mimetype

/-! ## Server address -/

/-- An entry of `os.networkInterfaces()[name]`. -/
structure NetworkAlias where
  address : String
  family : String
  internal : Bool
deriving DecidableEq

/-- The method `s.startsWith(p)`. -/
def startsWith (s p : String) : Bool := p.data.isPrefixOf s.data

/-- The test of the first loop: a non-internal IPv4 address starting with `192.168.`, `10.`
or `172.`. -/
def preferredAlias (alias_ : NetworkAlias) : Bool :=
  alias_.family == "IPv4" && !alias_.internal &&
    (startsWith alias_.address "192.168." || startsWith alias_.address "10." ||
      startsWith alias_.address "172.")

/-- The test of the fallback loop: a non-internal IPv4 address. -/
def fallbackAlias (alias_ : NetworkAlias) : Bool := alias_.family == "IPv4" && !alias_.internal

/-- The function `getLocalNetworkIP` on the table `os.networkInterfaces()`, given as the list
of its entries in the order of `Object.keys`. -/
def getLocalNetworkIP (interfaces : List (String × List NetworkAlias)) : String :=
  match interfaces.findSome? (fun iface => iface.2.find? preferredAlias) with
  | some alias_ => alias_.address
  | none =>
    match interfaces.findSome? (fun iface => iface.2.find? fallbackAlias) with
    | some alias_ => alias_.address
    | none => "127.0.0.1"

/-- The value of a string of decimal digits, read from the left with `acc` the value so far;
`none` when a character is not a digit. -/
def digitsValue (acc : Nat) : List Char → Option Nat
  | [] => some acc
  | c :: cs =>
    if c.isDigit then digitsValue (acc * 10 + (c.toNat - 48)) cs else none

/-- The value of a non-empty string of decimal digits. -/
def decimalNat (cs : List Char) : Option Nat :=
  match cs with
  | [] => none
  | _ => digitsValue 0 cs

/-- Following the claim: an IPv4 address in dotted-decimal form lies in a private range when
it belongs to `10.0.0.0/8`, `172.16.0.0/12` or `192.168.0.0/16`. -/
def specPrivateRange (address : String) : Bool :=
  match (jsSplit address '.').map (fun part => decimalNat part.data) with
  | [some a, some b, some c, some d] =>
    a ≤ 255 && b ≤ 255 && c ≤ 255 && d ≤ 255 &&
      (a == 10 || (a == 172 && 16 ≤ b && b ≤ 31) || (a == 192 && b == 168))
  | _ => false

/-! ## Further definitions: OTP values, publications of a user, joining tags -/

/-- Following the claim: the values `generateOTP` can return when `crypto.randomInt(min, max)`
returns any integer `n` with `min ≤ n < max`, for the call `crypto.randomInt(100000, 999999)`
of the source. -/
def possibleOTP (code : String) : Prop :=
  ∃ draw, 100000 ≤ draw ∧ draw < 999999 ∧ generateOTP draw = code

/-- The handler of `GET /api/publications/user/:userId`: the `publications` array of the
response (populated fields left out). -/
def listUserPublications (pubs : List Publication) (userId : ObjectId) : List Publication :=
  sortNewestFirst (pubs.filter (fun p => p.userId == userId && p.isActive))

/-- The characters of `pieces.join(sep)`. -/
def joinChars (sep : Char) : List (List Char) → List Char
  | [] => []
  | [piece] => piece
  | piece :: next :: rest => piece ++ sep :: joinChars sep (next :: rest)

/-- The string `xs.join(sep)` for a one-character separator. -/
def jsJoin (xs : List String) (sep : Char) : String :=
  String.mk (joinChars sep (xs.map String.data))

/-- The expression `tags.split(',').map(t => t.trim()).filter(Boolean)` on the characters of
`tags`: `parseTags` before the pieces are packed into strings. -/
def parseTagChars (cs : List Char) : List (List Char) :=
  ((splitCharsAux ',' cs []).map trimChars).filter (fun piece => piece != [])

/-! ## Concrete data used to evaluate the handlers -/

/-- A `parseInt` for evaluation: leading white space is skipped, then an optional sign and the
longest run of decimal digits are read; without a digit the result is `NaN`. Hexadecimal
input is not recognised. -/
def sampleParseInt (s : String) : JsNumber :=
  let cs := s.data.dropWhile isJsWhitespace
  let negative := cs.head? == some '-'
  let cs := if cs.head? == some '-' || cs.head? == some '+' then cs.drop 1 else cs
  match decimalNat (cs.takeWhile Char.isDigit) with
  | none => JsNumber.nan
  | some n => JsNumber.finite (if negative then -(n : Rat) else (n : Rat))

/-- A `path.extname` for evaluation, on a file name without directory part: the text from the
last dot on, or the empty string when there is no dot or the only dot comes first. -/
def sampleExtname (name : String) : String :=
  let afterDot := (name.data.reverse.takeWhile (fun c => c != '.')).reverse
  if afterDot.length + 1 < name.data.length then String.mk ('.' :: afterDot) else ""

/-- An environment for evaluation on concrete inputs: the token `good` verifies, the token
`old` is expired, every other token is malformed; lower-casing is that of ASCII letters, with
which `toLowerCase` agrees on ASCII strings; only `0` and `1` are converted to numbers by
unary plus and by `parseFloat` (every other string gives `NaN` here), `parseInt` and
`path.extname` are `sampleParseInt` and `sampleExtname`, and only `2024-01-01` is a valid
date. -/
def Env.sample : Env :=
  { baseUrl := "http://192.168.1.10:5000"
    jwtSign := fun user secret _ _ =>
      (match secret with
       | Secret.access => "access:"
       | Secret.refresh => "refresh:") ++ user.userId
    jwtVerify := fun token _ _ =>
      if token == "good" then
        VerifyResult.ok { userId := "64b7f0c2a1d3e4f5a6b7c8d9", email := some "ana@example.com" }
      else if token == "old" then VerifyResult.tokenExpired
      else VerifyResult.jsonWebTokenError "jwt malformed"
    toLowerCase := fun s => String.mk (s.data.map Char.toLower)
    toNumber := fun s =>
      if s == "0" then JsNumber.finite 0
      else if s == "1" then JsNumber.finite 1
      else JsNumber.nan
    parseFloat := fun s =>
      if s == "0" then JsNumber.finite 0
      else if s == "1" then JsNumber.finite 1
      else JsNumber.nan
    parseInt := sampleParseInt
    extname := sampleExtname
    parseDate := fun s => if s == "2024-01-01" then some 1704067200000 else none }

/-- A user who has completed a verification: both OTP fields are cleared. -/
def verifiedUser : User :=
  { id := "64b7f0c2a1d3e4f5a6b7c8d9", email := "ana@example.com", name := "Ana",
    password := "$2a$10$hashed", profileImage := "", isVerified := true, status := "active",
    otp := none, otpExpires := none }

/-- A user with a pending code `123456` expiring at time `600000`. -/
def pendingUser : User :=
  { id := "64b7f0c2a1d3e4f5a6b7c8d9", email := "ana@example.com", name := "Ana",
    password := "$2a$10$hashed", profileImage := "", isVerified := false, status := "active",
    otp := some "123456", otpExpires := some 600000 }

/-- A user whose role status is `admin` and whose email is not on the allowlist. -/
def adminUser : User :=
  { id := "64b7f0c2a1d3e4f5a6b7c8da", email := "bob@example.com", name := "Bob",
    password := "$2a$10$hashed", profileImage := "", isVerified := true, status := "admin",
    otp := none, otpExpires := none }

/-- The privileged operator of the allowlist, with the default role status. -/
def operatorUser : User :=
  { id := "64b7f0c2a1d3e4f5a6b7c8db", email := "NyunduMathryme@gmail.com", name := "",
    password := "$2a$10$hashed", profileImage := "", isVerified := true, status := "active",
    otp := none, otpExpires := none }

/-- A text publication of `ana` with one image and no likes. -/
def samplePublication : Publication :=
  { id := "64b7f0c2a1d3e4f5a6b7c8e0", userId := "64b7f0c2a1d3e4f5a6b7c8d9",
    content := "Bonjour", type := "photo",
    media := [{ type := "image", url := "http://192.168.1.10:5000/uploads/publications/pub-1.png",
                filename := "pub-1.png" }],
    location := none, tags := ["a"], category := none, visibility := "public",
    likes := [], comments := [], isActive := true, createdAt := 1000, updatedAt := 1000 }

/-- A store holding `samplePublication` and its media file. -/
def sampleStore : Store :=
  { publications := [samplePublication], files := ["uploads/publications/pub-1.png"] }

/-- An update body that only sets `content`. -/
def sampleUpdate : PublicationUpdate :=
  { content := some "pirate", latitude := none, longitude := none, address := none,
    placeName := none, tags := none, category := none, visibility := none, files := [] }

/-- A marker of `ana` with two photos and no video. -/
def sampleMarker : Marker :=
  { id := "64b7f0c2a1d3e4f5a6b7c8f0", userId := "64b7f0c2a1d3e4f5a6b7c8d9",
    latitude := JsNumber.finite 1, longitude := JsNumber.finite 3, title := "Spot",
    comment := "", color := "#FF0000",
    photos := ["http://192.168.1.10:5000/uploads/markers/marker-1.png",
               "http://192.168.1.10:5000/uploads/markers/marker-2.png"],
    videos := [], createdAt := 1000, updatedAt := 1000 }

/-- A store holding `sampleMarker`, its two photo files and one unrelated file. -/
def sampleMarkerStore : MarkerStore :=
  { markers := [sampleMarker],
    files := ["uploads/markers/marker-1.png", "uploads/markers/marker-2.png",
              "uploads/profile-1.png"] }

/-- A create-marker body with JSON number coordinates, latitude `0`. -/
def equatorMarker : MarkerCreate :=
  { latitude := Field.number (JsNumber.finite 0), longitude := Field.number (JsNumber.finite 3),
    title := some "Spot", comment := none, color := none, photos := [], videos := [] }

/-- A create-marker body whose title consists of spaces. -/
def blankTitleMarker : MarkerCreate :=
  { latitude := Field.number (JsNumber.finite 1), longitude := Field.number (JsNumber.finite 3),
    title := some "   ", comment := none, color := none, photos := [], videos := [] }

/-- A multipart create-employee body whose name consists of spaces. -/
def blankNameEmployee : EmployeeBody :=
  { name := some "   ", email := some "eve@example.com", phone := some "0600000000",
    startDate := none, endDate := none, certificateStartDate := none,
    certificateEndDate := none, files := some (none, none) }

/-- A table with a public address starting with `172.` listed before a private one. -/
def sampleInterfaces : List (String × List NetworkAlias) :=
  [("lo", [{ address := "127.0.0.1", family := "IPv4", internal := true }]),
   ("eth0", [{ address := "172.32.0.5", family := "IPv4", internal := false }]),
   ("wlan0", [{ address := "192.168.1.2", family := "IPv4", internal := false }])]

/-- A user with a stored profile image. -/
def userWithImage : User :=
  { id := "64b7f0c2a1d3e4f5a6b7c8dc", email := "cy@example.com", name := "Cy",
    password := "$2a$10$hashed", profileImage := "uploads/profile-1.png", isVerified := true,
    status := "active", otp := none, otpExpires := none }

/-- A store holding `userWithImage` and the image file. -/
def sampleUserStore : UserStore :=
  { users := [userWithImage], files := ["uploads/profile-1.png"] }

/-- An update body that only sets a title made of spaces. -/
def blankTitleUpdate : MarkerUpdate :=
  { title := some "   ", comment := none, color := none, photos := [], videos := [] }

/-- An update body that sets the comment and uploads one photo. -/
def commentUpdate : MarkerUpdate :=
  { title := none, comment := some " vue ", color := none,
    photos := [{ mimetype := "image/png", path := "uploads/markers/marker-3.png",
                 filename := "marker-3.png" }],
    videos := [] }

/-! ## Lemmas on collections -/

theorem User.findOne_save {users : List User} {email : String} {user user1 : User}
    (hfind : User.findOne users email = some user) (hid : user1.id = user.id)
    (hemail : user1.email = email) :
    User.findOne (User.save users user1) email = some user1 := by
  induction users with
  | nil => simp [User.findOne] at hfind
  | cons u rest ih =>
    simp only [User.findOne, User.save, List.map_cons, List.find?_cons] at hfind ih ⊢
    by_cases hid1 : u.id = user1.id
    · simp [hid1, hemail]
    · by_cases hu : u.email = email
      · simp only [hu, beq_self_eq_true] at hfind
        cases hfind
        exact absurd hid.symm hid1
      · have hb : (u.email == email) = false := by simpa using hu
        have hi : (u.id == user1.id) = false := by simpa using hid1
        simp only [hb] at hfind
        simp only [hi, Bool.false_eq_true, if_false, hb]
        exact ih hfind

theorem User.findOne_email {users : List User} {email : String} (user : User)
    (hfind : User.findOne users email = some user) : user.email = email := by
  have := List.find?_some hfind
  simpa using this

/-! ## OTP challenge -/

/-- With no code stored, every request that does carry an `otp` field is rejected with 400
and nothing is written. -/
theorem verifyOtp_unset_rejects_present (env : Env) (users : List User) (email : String)
    (user : User) (otp : JsValue) (now : Nat)
    (hfind : User.findOne users email = some user) (hunset : user.otp = none)
    (hpresent : otp ≠ JsValue.undefined) :
    verifyOtp env users email otp now =
      (some { status := 400, message := "OTP invalide ou expiré" }, users) := by
  have hne : otpStrictNe user.otp otp = true := by
    rw [hunset]
    cases otp <;> first | rfl | exact absurd rfl hpresent
  simp [verifyOtp, hfind, hne]

/-- C1, evaluation at the failing input: for a user whose `otp` and `otpExpires` are both
unset (the state left by a successful verification), a verify-otp request whose body has no
`otp` field is answered 200 with an access token and a refresh token, not 400: `undefined !==
undefined` is false and `Date.now() > undefined` is false, so the guard does not fire. -/
theorem verifyOtp_unset_accepts_absent_otp (env : Env) (now : Nat) :
    verifyOtp env [verifiedUser] "ana@example.com" JsValue.undefined now =
      (some { status := 200, message := "Connexion réussie",
              accessToken := some (env.jwtSign
                { userId := "64b7f0c2a1d3e4f5a6b7c8d9", email := some "ana@example.com" }
                Secret.access 900 now),
              refreshToken := some (env.jwtSign
                { userId := "64b7f0c2a1d3e4f5a6b7c8d9", email := none }
                Secret.refresh 604800 now),
              user := some { email := "ana@example.com", name := "Ana", profileImage := "",
                             status := "active" } },
       [verifiedUser]) := by
  simp [verifyOtp, User.findOne, User.save, verifiedUser, otpStrictNe, nowAfter, truthy]

/-- A request submitting the stored code no later than its expiry is answered 200 with both
tokens, and the record is saved with the OTP fields cleared and `isVerified` set. -/
theorem verifyOtp_accepts (env : Env) (users : List User) (email : String)
    (user : User) (c : String) (e t : Nat)
    (hfind : User.findOne users email = some user)
    (hotp : user.otp = some c) (hexp : user.otpExpires = some e) (ht : t ≤ e) :
    verifyOtp env users email (JsValue.string c) t =
      (some { status := 200, message := "Connexion réussie",
              accessToken := some (env.jwtSign
                { userId := user.id, email := some user.email } Secret.access 900 t),
              refreshToken := some (env.jwtSign
                { userId := user.id, email := none } Secret.refresh 604800 t),
              user := some { email := user.email, name := user.name,
                             profileImage :=
                               if truthy user.profileImage then
                                 env.baseUrl ++ "/" ++ user.profileImage
                               else "",
                             status := user.status } },
       User.save users { user with otp := none, otpExpires := none, isVerified := true }) := by
  have h1 : otpStrictNe user.otp (JsValue.string c) = false := by
    simp [hotp, otpStrictNe]
  have h2 : nowAfter t user.otpExpires = false := by
    simp [hexp, nowAfter, Nat.not_lt.mpr ht]
  simp [verifyOtp, hfind, h1, h2]

/-- C2: for a user holding code `c` with expiry `e`, a verify-otp request submitting `c` at a
time `t ≤ e` is answered 200 with an access and a refresh token, and the saved record has
`otp` and `otpExpires` cleared and `isVerified` set; a following request submitting `c`
again, at any time, is answered 400 and writes nothing. -/
theorem verifyOtp_succeeds_once (env : Env) (users : List User) (email : String)
    (user : User) (c : String) (e t t2 : Nat)
    (hfind : User.findOne users email = some user)
    (hotp : user.otp = some c) (hexp : user.otpExpires = some e) (ht : t ≤ e) :
    verifyOtp env users email (JsValue.string c) t =
      (some { status := 200, message := "Connexion réussie",
              accessToken := some (env.jwtSign
                { userId := user.id, email := some user.email } Secret.access 900 t),
              refreshToken := some (env.jwtSign
                { userId := user.id, email := none } Secret.refresh 604800 t),
              user := some { email := user.email, name := user.name,
                             profileImage :=
                               if truthy user.profileImage then
                                 env.baseUrl ++ "/" ++ user.profileImage
                               else "",
                             status := user.status } },
       User.save users { user with otp := none, otpExpires := none, isVerified := true }) ∧
    User.findOne (verifyOtp env users email (JsValue.string c) t).2 email =
      some { user with otp := none, otpExpires := none, isVerified := true } ∧
    verifyOtp env (verifyOtp env users email (JsValue.string c) t).2 email (JsValue.string c) t2 =
      (some { status := 400, message := "OTP invalide ou expiré" },
       (verifyOtp env users email (JsValue.string c) t).2) := by
  have hfirst := verifyOtp_accepts env users email user c e t hfind hotp hexp ht
  have hfind2 : User.findOne
      (User.save users { user with otp := none, otpExpires := none, isVerified := true }) email =
      some { user with otp := none, otpExpires := none, isVerified := true } :=
    User.findOne_save hfind rfl (User.findOne_email user hfind)
  refine ⟨hfirst, ?_, ?_⟩
  · rw [hfirst]; exact hfind2
  · rw [hfirst]
    exact verifyOtp_unset_rejects_present env _ email _ (JsValue.string c) t2 hfind2 rfl
      (by simp)

/-- C2, at a concrete input: the code `123456` submitted at its expiry time. -/
theorem verifyOtp_succeeds_once_witness :
    User.findOne (verifyOtp Env.sample [pendingUser] "ana@example.com"
      (JsValue.string "123456") 600000).2 "ana@example.com" =
      some { pendingUser with otp := none, otpExpires := none, isVerified := true } :=
  (verifyOtp_succeeds_once Env.sample [pendingUser] "ana@example.com" pendingUser "123456"
    600000 600000 600001 (by decide) rfl rfl (Nat.le_refl _)).2.1

/-- C3: after a login request at time `t0` for an existing user, with `draw` the integer drawn
for the code, the saved record holds the code `generateOTP draw` and the expiry `t0 + 600000`
whatever it held before (and whether or not the mail could be sent); against that state a
verify-otp request at time `t` is answered 200 with tokens when the submitted value is the
string `generateOTP draw` and `t ≤ t0 + 600000`, and is answered 400 without any write in
every other case. -/
theorem login_replaces_otp (env : Env) (users : List User) (email : String) (user : User)
    (draw t0 : Nat) (mailSent : Bool)
    (hfind : User.findOne users email = some user) :
    (login users email draw t0 mailSent).2 =
      User.save users
        { user with otp := some (generateOTP draw), otpExpires := some (t0 + 600000) } ∧
    User.findOne (login users email draw t0 mailSent).2 email =
      some { user with otp := some (generateOTP draw), otpExpires := some (t0 + 600000) } ∧
    ∀ (otp : JsValue) (t : Nat),
      ((otp = JsValue.string (generateOTP draw) ∧ t ≤ t0 + 600000) →
        ∃ access refresh view,
          (verifyOtp env (login users email draw t0 mailSent).2 email otp t).1 =
            some { status := 200, message := "Connexion réussie", accessToken := some access,
                   refreshToken := some refresh, user := some view }) ∧
      (¬ (otp = JsValue.string (generateOTP draw) ∧ t ≤ t0 + 600000) →
        verifyOtp env (login users email draw t0 mailSent).2 email otp t =
          (some { status := 400, message := "OTP invalide ou expiré" },
           (login users email draw t0 mailSent).2)) := by
  have hstate : (login users email draw t0 mailSent).2 =
      User.save users
        { user with otp := some (generateOTP draw), otpExpires := some (t0 + 600000) } := by
    cases mailSent <;> simp [login, hfind]
  have hfind2 : User.findOne (User.save users
        { user with otp := some (generateOTP draw), otpExpires := some (t0 + 600000) }) email =
      some { user with otp := some (generateOTP draw), otpExpires := some (t0 + 600000) } :=
    User.findOne_save hfind rfl (User.findOne_email user hfind)
  refine ⟨hstate, ?_, ?_⟩
  · rw [hstate]; exact hfind2
  · intro otp t
    rw [hstate]
    constructor
    · rintro ⟨rfl, ht⟩
      have h := verifyOtp_accepts env _ email _ (generateOTP draw) (t0 + 600000) t
        hfind2 rfl rfl ht
      rw [h]
      exact ⟨_, _, _, rfl⟩
    · intro hnot
      have hguard : (otpStrictNe (some (generateOTP draw)) otp ||
          nowAfter t (some (t0 + 600000))) = true := by
        by_cases hotp : otp = JsValue.string (generateOTP draw)
        · have ht : t0 + 600000 < t := by
            by_contra hle
            exact hnot ⟨hotp, Nat.not_lt.mp hle⟩
          simp [nowAfter, ht]
        · have : otpStrictNe (some (generateOTP draw)) otp = true := by
            cases otp with
            | string s =>
              have hs : generateOTP draw ≠ s := fun h => hotp (by rw [h])
              simpa [otpStrictNe] using hs
            | _ => rfl
          simp [this]
      simp only [verifyOtp, hfind2]
      rw [if_pos hguard]

/-- C3, at a concrete input: a login at time `1000` drawing `654321` replaces the pending
code `123456`. -/
theorem login_replaces_otp_witness :
    User.findOne (login [pendingUser] "ana@example.com" 654321 1000 true).2 "ana@example.com" =
      some { pendingUser with otp := some (generateOTP 654321),
                              otpExpires := some (1000 + 600000) } :=
  (login_replaces_otp Env.sample [pendingUser] "ana@example.com" pendingUser 654321 1000 true
    (by decide)).2.1

/-! ## Access control middleware -/

/-- The empty header has no second component. -/
theorem bearerToken_empty : bearerToken "" = none := by decide

/-- C4: a request without an Authorization header, or whose header has no second
space-separated component, or whose second component is `null`, is answered 401; `next` is
not called, `req.user` stays undefined and no database operation is issued. -/
theorem verifyToken_missing_token (env : Env) (authorization : Option String) (now : Nat)
    (h : authorization = none ∨
      ∃ authHeader, authorization = some authHeader ∧
        (bearerToken authHeader = none ∨ bearerToken authHeader = some "null")) :
    ∃ message, verifyToken env authorization now =
      { response := some { status := 401, message := message }, nextCalls := 0, user := none,
        dbOps := [] } := by
  rcases h with rfl | ⟨authHeader, rfl, h⟩
  · exact ⟨_, rfl⟩
  · by_cases hempty : truthy authHeader = true
    · rcases h with h | h
      · exact ⟨"Token manquant ou invalide - Format: Bearer <token>",
          by simp [verifyToken, hempty, h, MiddlewareResult.reject]⟩
      · exact ⟨"Token manquant ou invalide - Format: Bearer <token>",
          by simp [verifyToken, hempty, h, MiddlewareResult.reject]⟩
    · exact ⟨"Token manquant - Header Authorization requis",
        by simp [verifyToken, hempty, MiddlewareResult.reject]⟩

/-- C4, at concrete inputs: no header, a header without a token, and the token `null`. -/
theorem verifyToken_missing_token_witness :
    (∃ message, verifyToken Env.sample none 0 =
      { response := some { status := 401, message := message }, nextCalls := 0, user := none,
        dbOps := [] }) ∧
    (∃ message, verifyToken Env.sample (some "Bearer") 0 =
      { response := some { status := 401, message := message }, nextCalls := 0, user := none,
        dbOps := [] }) ∧
    (∃ message, verifyToken Env.sample (some "Bearer null") 0 =
      { response := some { status := 401, message := message }, nextCalls := 0, user := none,
        dbOps := [] }) :=
  ⟨verifyToken_missing_token Env.sample none 0 (Or.inl rfl),
   verifyToken_missing_token Env.sample (some "Bearer") 0
     (Or.inr ⟨"Bearer", rfl, Or.inl (by decide)⟩),
   verifyToken_missing_token Env.sample (some "Bearer null") 0
     (Or.inr ⟨"Bearer null", rfl, Or.inr (by decide)⟩)⟩

/-- A header with a second component is not the empty string. -/
theorem truthy_of_bearerToken {authHeader token : String}
    (h : bearerToken authHeader = some token) : truthy authHeader = true := by
  by_cases hempty : authHeader = ""
  · subst hempty
    rw [bearerToken_empty] at h
    cases h
  · simpa [truthy] using hempty

/-- C5: when the request carries a token (a non-empty second component other than `null`)
whose verification against the access secret fails, the answer is 403, `next` is not called
and `req.user` stays undefined; the body has `expired: true` when the failure is a
`TokenExpiredError` and has no `expired` field for every other failure. -/
theorem verifyToken_failure_terminal (env : Env) (authHeader token : String) (now : Nat)
    (htoken : bearerToken authHeader = some token) (hne : token ≠ "") (hnull : token ≠ "null")
    (hfail : ∀ user, env.jwtVerify token Secret.access now ≠ VerifyResult.ok user) :
    ∃ response,
      verifyToken env (some authHeader) now =
        { response := some response, nextCalls := 0, user := none, dbOps := [] } ∧
      response.status = 403 ∧
      (env.jwtVerify token Secret.access now = VerifyResult.tokenExpired →
        response.expired = some true) ∧
      (env.jwtVerify token Secret.access now ≠ VerifyResult.tokenExpired →
        response.expired = none) := by
  have hhdr := truthy_of_bearerToken htoken
  have htr : truthy token = true := by simpa [truthy] using hne
  have hn : (token == "null") = false := by simpa using hnull
  cases hv : env.jwtVerify token Secret.access now with
  | ok user => exact absurd hv (hfail user)
  | tokenExpired =>
    exact ⟨{ status := 403, message := "Token expiré", expired := some true },
      by simp [verifyToken, hhdr, htoken, htr, hn, hv], rfl, fun _ => rfl,
      fun h => absurd rfl h⟩
  | jsonWebTokenError m =>
    exact ⟨{ status := 403, message := "Token invalide - " ++ m },
      by simp [verifyToken, hhdr, htoken, htr, hn, hv, MiddlewareResult.reject], rfl,
      (fun h => by cases h), fun _ => rfl⟩
  | otherError =>
    exact ⟨{ status := 403, message := "Token invalide" },
      by simp [verifyToken, hhdr, htoken, htr, hn, hv, MiddlewareResult.reject], rfl,
      (fun h => by cases h), fun _ => rfl⟩

/-- C5, at concrete inputs: the expired token `old` and the malformed token `junk`. -/
theorem verifyToken_failure_terminal_witness :
    (∃ response,
      verifyToken Env.sample (some "Bearer old") 0 =
        { response := some response, nextCalls := 0, user := none, dbOps := [] } ∧
      response.status = 403 ∧
      (Env.sample.jwtVerify "old" Secret.access 0 = VerifyResult.tokenExpired →
        response.expired = some true) ∧
      (Env.sample.jwtVerify "old" Secret.access 0 ≠ VerifyResult.tokenExpired →
        response.expired = none)) ∧
    (∃ response,
      verifyToken Env.sample (some "Bearer junk") 0 =
        { response := some response, nextCalls := 0, user := none, dbOps := [] } ∧
      response.status = 403 ∧
      (Env.sample.jwtVerify "junk" Secret.access 0 = VerifyResult.tokenExpired →
        response.expired = some true) ∧
      (Env.sample.jwtVerify "junk" Secret.access 0 ≠ VerifyResult.tokenExpired →
        response.expired = none)) :=
  ⟨verifyToken_failure_terminal Env.sample "Bearer old" "old" 0 (by decide) (by decide)
     (by decide) (by intro user; simp [Env.sample]),
   verifyToken_failure_terminal Env.sample "Bearer junk" "junk" 0 (by decide) (by decide)
     (by decide) (by intro user; simp [Env.sample])⟩

/-- C6: `verifyToken` calls `next` if and only if the header is present, its second
space-separated component is non-empty and not `null`, and that token verifies against the
access secret; `next` is then called exactly once, no response is sent and `req.user` is the
decoded payload. In every other case a response is sent and `req.user` stays undefined. The
middleware never issues a database operation. -/
theorem verifyToken_next_iff (env : Env) (authorization : Option String) (now : Nat) :
    (0 < (verifyToken env authorization now).nextCalls ↔
      ∃ authHeader token user, authorization = some authHeader ∧
        bearerToken authHeader = some token ∧ token ≠ "" ∧ token ≠ "null" ∧
        env.jwtVerify token Secret.access now = VerifyResult.ok user) ∧
    (∀ authHeader token user, authorization = some authHeader →
        bearerToken authHeader = some token → token ≠ "" → token ≠ "null" →
        env.jwtVerify token Secret.access now = VerifyResult.ok user →
        verifyToken env authorization now =
          { response := none, nextCalls := 1, user := some user, dbOps := [] }) ∧
    ((verifyToken env authorization now).nextCalls = 0 →
        (verifyToken env authorization now).response ≠ none ∧
        (verifyToken env authorization now).user = none) ∧
    (verifyToken env authorization now).dbOps = [] := by
  have hpos : ∀ authHeader token user, authorization = some authHeader →
      bearerToken authHeader = some token → token ≠ "" → token ≠ "null" →
      env.jwtVerify token Secret.access now = VerifyResult.ok user →
      verifyToken env authorization now =
        { response := none, nextCalls := 1, user := some user, dbOps := [] } := by
    intro authHeader token user ha htoken hne hnull hv
    subst ha
    have hhdr := truthy_of_bearerToken htoken
    have htr : truthy token = true := by simpa [truthy] using hne
    have hn : (token == "null") = false := by simpa using hnull
    simp [verifyToken, hhdr, htoken, htr, hn, hv]
  have hneg : (¬ ∃ authHeader token user, authorization = some authHeader ∧
        bearerToken authHeader = some token ∧ token ≠ "" ∧ token ≠ "null" ∧
        env.jwtVerify token Secret.access now = VerifyResult.ok user) →
      (verifyToken env authorization now).nextCalls = 0 ∧
      (verifyToken env authorization now).response ≠ none ∧
      (verifyToken env authorization now).user = none ∧
      (verifyToken env authorization now).dbOps = [] := by
    intro hno
    cases authorization with
    | none => simp [verifyToken, MiddlewareResult.reject]
    | some authHeader =>
      by_cases hhdr : truthy authHeader = true
      · cases htoken : bearerToken authHeader with
        | none => simp [verifyToken, hhdr, htoken, MiddlewareResult.reject]
        | some token =>
          by_cases hbad : (!truthy token || token == "null") = true
          · simp only [verifyToken, hhdr, htoken, hbad]
            simp [MiddlewareResult.reject]
          · have hne : token ≠ "" := by
              intro h; apply hbad; simp [h, truthy]
            have hnull : token ≠ "null" := by
              intro h; apply hbad; simp [h]
            cases hv : env.jwtVerify token Secret.access now with
            | ok user => exact absurd ⟨authHeader, token, user, rfl, htoken, hne, hnull, hv⟩ hno
            | tokenExpired => simp [verifyToken, hhdr, htoken, hbad, hv]
            | jsonWebTokenError m =>
              simp [verifyToken, hhdr, htoken, hbad, hv, MiddlewareResult.reject]
            | otherError =>
              simp [verifyToken, hhdr, htoken, hbad, hv, MiddlewareResult.reject]
      · simp [verifyToken, hhdr, MiddlewareResult.reject]
  by_cases hex : ∃ authHeader token user, authorization = some authHeader ∧
        bearerToken authHeader = some token ∧ token ≠ "" ∧ token ≠ "null" ∧
        env.jwtVerify token Secret.access now = VerifyResult.ok user
  · obtain ⟨authHeader, token, user, ha, htoken, hne, hnull, hv⟩ := hex
    have hr := hpos authHeader token user ha htoken hne hnull hv
    refine ⟨?_, hpos, ?_, ?_⟩
    · constructor
      · intro _; exact ⟨authHeader, token, user, ha, htoken, hne, hnull, hv⟩
      · intro _; rw [hr]; exact Nat.one_pos
    · intro h0; rw [hr] at h0; cases h0
    · rw [hr]
  · obtain ⟨h0, hresp, huser, hdb⟩ := hneg hex
    refine ⟨?_, hpos, ?_, hdb⟩
    · constructor
      · intro h; rw [h0] at h; exact absurd h (Nat.lt_irrefl 0)
      · intro h; exact absurd h hex
    · intro _; exact ⟨hresp, huser⟩

/-- C6, at a concrete input: the valid token `good` lets the request through with the
decoded identity attached. -/
theorem verifyToken_next_iff_witness :
    verifyToken Env.sample (some "Bearer good") 0 =
      { response := none, nextCalls := 1,
        user := some { userId := "64b7f0c2a1d3e4f5a6b7c8d9", email := some "ana@example.com" },
        dbOps := [] } :=
  (verifyToken_next_iff Env.sample (some "Bearer good") 0).2.1 "Bearer good" "good"
    { userId := "64b7f0c2a1d3e4f5a6b7c8d9", email := some "ana@example.com" }
    rfl (by decide) (by decide) (by decide) (by decide)

/-- The allowlist gate lets the request through exactly when the caller's record exists and
its lower-cased email is one of the two literals; otherwise it answers 403. -/
theorem allowlistGate_spec (message : String) (env : Env) (users : List User)
    (reqUser : Identity) :
    ((∃ user, User.findById users reqUser.userId = some user ∧
        env.toLowerCase user.email ∈ allowed) →
      allowlistGate message env users reqUser =
        { response := none, nextCalls := 1, user := some reqUser,
          dbOps := [DbOp.userFindById reqUser.userId] }) ∧
    ((¬ ∃ user, User.findById users reqUser.userId = some user ∧
        env.toLowerCase user.email ∈ allowed) →
      allowlistGate message env users reqUser =
        { response := some { status := 403, message := message }, nextCalls := 0,
          user := some reqUser, dbOps := [DbOp.userFindById reqUser.userId] }) := by
  constructor
  · rintro ⟨user, hfind, hmem⟩
    simp [allowlistGate, hfind, hmem]
  · intro hno
    cases hfind : User.findById users reqUser.userId with
    | none => simp [allowlistGate, hfind, MiddlewareResult.reject]
    | some user =>
      have hc : env.toLowerCase user.email ∉ allowed := fun hmem => hno ⟨user, hfind, hmem⟩
      simp [allowlistGate, hfind, hc, MiddlewareResult.reject]

/-- C7, refuted as stated: a caller whose stored role status is `admin` and whose email is
not on the allowlist is answered 403, without `next`, by the gate of the employee endpoints
and by the gate of the user-management endpoints. -/
theorem roleGate_rejects_admin_status :
    adminUser.status = "admin" ∧
    User.findById [adminUser] adminUser.id = some adminUser ∧
    verifyCanCreateEmployees Env.sample [adminUser]
        { userId := adminUser.id, email := some adminUser.email } =
      { response := some { status := 403,
                           message := "Seul l\'admin principal peut créer des employés" },
        nextCalls := 0, user := some { userId := adminUser.id, email := some adminUser.email },
        dbOps := [DbOp.userFindById adminUser.id] } ∧
    verifyCanManageUsers Env.sample [adminUser]
        { userId := adminUser.id, email := some adminUser.email } =
      { response := some { status := 403,
                           message := "Seul l\'admin principal peut gérer les utilisateurs" },
        nextCalls := 0, user := some { userId := adminUser.id, email := some adminUser.email },
        dbOps := [DbOp.userFindById adminUser.id] } := by
  refine ⟨rfl, by decide, ?_, ?_⟩
  · exact (allowlistGate_spec _ Env.sample [adminUser] _).2 (by decide)
  · exact (allowlistGate_spec _ Env.sample [adminUser] _).2 (by decide)

/-- C7, amended: each of the two gates (employee endpoints, user-management endpoints) calls
`next`, once and without sending a response, if and only if the caller's user record exists
and its lower-cased email is on the hardcoded allowlist; in every other case it answers 403
and does not call `next`. The stored role status does not enter the decision. -/
theorem roleGate_admits_iff_allowlisted (env : Env) (users : List User) (reqUser : Identity) :
    (((verifyCanCreateEmployees env users reqUser).nextCalls = 1 ∧
        (verifyCanCreateEmployees env users reqUser).response = none) ↔
      ∃ user, User.findById users reqUser.userId = some user ∧
        env.toLowerCase user.email ∈ allowed) ∧
    (((verifyCanManageUsers env users reqUser).nextCalls = 1 ∧
        (verifyCanManageUsers env users reqUser).response = none) ↔
      ∃ user, User.findById users reqUser.userId = some user ∧
        env.toLowerCase user.email ∈ allowed) ∧
    ((¬ ∃ user, User.findById users reqUser.userId = some user ∧
        env.toLowerCase user.email ∈ allowed) →
      (verifyCanCreateEmployees env users reqUser).nextCalls = 0 ∧
      (verifyCanCreateEmployees env users reqUser).response.map (fun r => r.status) = some 403 ∧
      (verifyCanManageUsers env users reqUser).nextCalls = 0 ∧
      (verifyCanManageUsers env users reqUser).response.map (fun r => r.status) = some 403) := by
  have key : ∀ message,
      (((allowlistGate message env users reqUser).nextCalls = 1 ∧
          (allowlistGate message env users reqUser).response = none) ↔
        ∃ user, User.findById users reqUser.userId = some user ∧
          env.toLowerCase user.email ∈ allowed) := by
    intro message
    by_cases hex : ∃ user, User.findById users reqUser.userId = some user ∧
        env.toLowerCase user.email ∈ allowed
    · rw [(allowlistGate_spec message env users reqUser).1 hex]
      exact ⟨fun _ => hex, fun _ => ⟨rfl, rfl⟩⟩
    · rw [(allowlistGate_spec message env users reqUser).2 hex]
      exact ⟨fun h => by simp at h, fun h => absurd h hex⟩
  refine ⟨key _, key _, ?_⟩
  intro hno
  simp only [verifyCanCreateEmployees, verifyCanManageUsers]
  rw [(allowlistGate_spec _ env users reqUser).2 hno,
    (allowlistGate_spec _ env users reqUser).2 hno]
  exact ⟨rfl, rfl, rfl, rfl⟩

/-- C7 amended, at a concrete input: the operator of the allowlist, whose role status is the
default `active` and whose email is written with capitals, passes the employee gate. -/
theorem roleGate_admits_iff_allowlisted_witness :
    (verifyCanCreateEmployees Env.sample [adminUser, operatorUser]
        { userId := operatorUser.id, email := some operatorUser.email }).nextCalls = 1 ∧
    (verifyCanCreateEmployees Env.sample [adminUser, operatorUser]
        { userId := operatorUser.id, email := some operatorUser.email }).response = none :=
  (roleGate_admits_iff_allowlisted Env.sample [adminUser, operatorUser]
    { userId := operatorUser.id, email := some operatorUser.email }).1.mpr
    ⟨operatorUser, by decide, by decide⟩

/-! ## Publications: ownership -/

/-- C8: for an existing publication whose owner differs from the caller, each of
`PUT /api/publications/:id`, `DELETE /api/publications/:id` and
`DELETE /api/publications/:id/media/:mediaIndex` answers 403 and leaves the whole store (every
publication record and every file on disk) as it was. -/
theorem publication_mutation_requires_owner (env : Env) (store : Store) (id caller : ObjectId)
    (pub : Publication) (body : PublicationUpdate) (mediaIndex : String) (now : Nat)
    (hfind : Publication.findById store.publications id = some pub)
    (howner : pub.userId ≠ caller) :
    updatePublication env store id caller body now =
      (some { status := 403, message := "Accès refusé" }, store) ∧
    deletePublication store id caller =
      (some { status := 403, message := "Accès refusé" }, store) ∧
    deletePublicationMedia env store id caller mediaIndex now =
      (some { status := 403, message := "Accès refusé" }, store) := by
  have hne : (pub.userId != caller) = true := by simpa using howner
  refine ⟨?_, ?_, ?_⟩
  · simp [updatePublication, hfind, hne, accessDenied]
  · simp [deletePublication, hfind, hne, accessDenied]
  · simp [deletePublicationMedia, hfind, hne, accessDenied]

/-- C8, at a concrete input: a caller other than the owner of `samplePublication`. -/
theorem publication_mutation_requires_owner_witness :
    updatePublication Env.sample sampleStore "64b7f0c2a1d3e4f5a6b7c8e0"
        "64b7f0c2a1d3e4f5a6b7c8da" sampleUpdate 2000 =
      (some { status := 403, message := "Accès refusé" }, sampleStore) ∧
    deletePublication sampleStore "64b7f0c2a1d3e4f5a6b7c8e0" "64b7f0c2a1d3e4f5a6b7c8da" =
      (some { status := 403, message := "Accès refusé" }, sampleStore) ∧
    deletePublicationMedia Env.sample sampleStore "64b7f0c2a1d3e4f5a6b7c8e0"
        "64b7f0c2a1d3e4f5a6b7c8da" "0" 2000 =
      (some { status := 403, message := "Accès refusé" }, sampleStore) :=
  publication_mutation_requires_owner Env.sample sampleStore "64b7f0c2a1d3e4f5a6b7c8e0"
    "64b7f0c2a1d3e4f5a6b7c8da" samplePublication sampleUpdate "0" 2000 (by decide) (by decide)

/-! ## Publications: likes -/

theorem Publication.findById_id {pubs : List Publication} {id : ObjectId} {pub : Publication}
    (hfind : Publication.findById pubs id = some pub) : pub.id = id := by
  have := List.find?_some hfind
  simpa using this

/-- Saving a valid document that was loaded by `id` succeeds, and the document is what
`findById id` returns afterwards. -/
theorem Publication.findById_save {pubs : List Publication} {id : ObjectId}
    {pub : Publication} (pub1 : Publication) (hfind : Publication.findById pubs id = some pub)
    (hid : pub1.id = pub.id) (hvalid : pub1.valid = true) :
    Publication.save pubs pub1 =
        some (pubs.map (fun p => if p.id == pub1.id then pub1 else p)) ∧
    Publication.findById (pubs.map (fun p => if p.id == pub1.id then pub1 else p)) id =
      some pub1 := by
  refine ⟨by simp [Publication.save, hvalid], ?_⟩
  have hid1 : pub1.id = id := by rw [hid]; exact Publication.findById_id hfind
  clear hid hvalid
  induction pubs with
  | nil => simp [Publication.findById] at hfind
  | cons p rest ih =>
    simp only [Publication.findById, List.map_cons, List.find?_cons] at hfind ih ⊢
    by_cases hp : p.id = pub1.id
    · simp [hp, hid1]
    · have hi : (p.id == pub1.id) = false := by simpa using hp
      have hb : (p.id == id) = false := by rw [← hid1]; exact hi
      simp only [hb] at hfind
      simp only [hi, Bool.false_eq_true, if_false, hb]
      exact ih hfind

/-- Saving a document leaves the documents with another `_id` as they were. -/
theorem Publication.findById_save_ne (pubs : List Publication) (pub1 : Publication)
    (id : ObjectId) (hne : id ≠ pub1.id) :
    Publication.findById (pubs.map (fun p => if p.id == pub1.id then pub1 else p)) id =
      Publication.findById pubs id := by
  induction pubs with
  | nil => rfl
  | cons p rest ih =>
    simp only [Publication.findById, List.map_cons, List.find?_cons] at ih ⊢
    by_cases hp : p.id = pub1.id
    · have hb : (p.id == id) = false := by
        rw [hp]; simpa using fun h => hne h.symm
      have hb1 : (pub1.id == id) = false := by simpa using fun h => hne h.symm
      simp only [hp, beq_self_eq_true, if_true, hb, hb1]
      exact ih
    · have hi : (p.id == pub1.id) = false := by simpa using hp
      simp only [hi, Bool.false_eq_true, if_false]
      rw [ih]

theorem indexOf_eq_none_iff (likes : List ObjectId) (userId : ObjectId) :
    indexOf likes userId = none ↔ userId ∉ likes := by
  induction likes with
  | nil => simp [indexOf]
  | cons x rest ih =>
    by_cases hx : x = userId
    · simp [indexOf, hx]
    · have hx2 : ¬ userId = x := fun h => hx h.symm
      simp [indexOf, hx, hx2, ih]

theorem indexOf_push (likes : List ObjectId) (userId : ObjectId) (hnot : userId ∉ likes) :
    indexOf (likes ++ [userId]) userId = some likes.length := by
  induction likes with
  | nil => simp [indexOf]
  | cons x rest ih =>
    have hx : ¬ x = userId := fun h => hnot (by simp [h])
    have hrest : userId ∉ rest := fun h => hnot (by simp [h])
    simp [indexOf, hx, ih hrest]

theorem eraseIdx_push {α : Type} (xs : List α) (a : α) :
    (xs ++ [a]).eraseIdx xs.length = xs := by
  induction xs with
  | nil => rfl
  | cons x rest ih => simp [List.eraseIdx, ih]

/-- A first toggle by a user absent from the list appends the user. -/
theorem toggleLike_absent (likes : List ObjectId) (userId : ObjectId) (hnot : userId ∉ likes) :
    toggleLike likes userId = likes ++ [userId] := by
  simp [toggleLike, (indexOf_eq_none_iff likes userId).mpr hnot]

/-- A second toggle removes the entry just appended. -/
theorem toggleLike_twice (likes : List ObjectId) (userId : ObjectId) (hnot : userId ∉ likes) :
    toggleLike (toggleLike likes userId) userId = likes := by
  rw [toggleLike_absent likes userId hnot]
  simp [toggleLike, indexOf_push likes userId hnot, eraseIdx_push]

/-- The toggle keeps a list free of repetitions. -/
theorem toggleLike_nodup (likes : List ObjectId) (userId : ObjectId) (h : likes.Nodup) :
    (toggleLike likes userId).Nodup := by
  unfold toggleLike
  cases hidx : indexOf likes userId with
  | none =>
    have hnot := (indexOf_eq_none_iff likes userId).mp hidx
    simp only []
    rw [List.nodup_append]
    refine ⟨h, List.nodup_singleton _, ?_⟩
    intro a ha hb
    rw [List.mem_singleton] at hb
    exact hnot (hb ▸ ha)
  | some index => exact h.sublist (List.eraseIdx_sublist likes index)

/-- The toggle by `userId` does not change whether another user is in the list. -/
theorem mem_toggleLike_of_ne (likes : List ObjectId) (userId other : ObjectId)
    (hne : other ≠ userId) : other ∈ toggleLike likes userId ↔ other ∈ likes := by
  induction likes with
  | nil => simp [toggleLike, indexOf, hne]
  | cons x rest ih =>
    by_cases hx : x = userId
    · subst hx
      simp [toggleLike, indexOf, hne]
    · have hb : (x == userId) = false := by simpa using hx
      cases hidx : indexOf rest userId with
      | none =>
        simp [toggleLike, indexOf, hb, hidx, hne]
      | some index =>
        have ih2 : other ∈ rest.eraseIdx index ↔ other ∈ rest := by
          simpa [toggleLike, hidx] using ih
        simp [toggleLike, indexOf, hb, hidx, ih2]

/-- Validation does not read the `likes` path. -/
theorem Publication.valid_likes (pub : Publication) (likes : List ObjectId) :
    ({ pub with likes := likes } : Publication).valid = pub.valid := rfl

/-- The like handler on an existing, schema-valid publication: the response reports whether
the caller was found and the resulting count, and the saved record differs from the loaded
one by its `likes` only. -/
theorem likePublication_found (pubs : List Publication) (id caller : ObjectId)
    (pub : Publication) (hfind : Publication.findById pubs id = some pub)
    (hvalid : pub.valid = true) :
    likePublication pubs id caller =
        (some { status := 200,
                message := if (indexOf pub.likes caller).isSome then "Like retiré" else "Liké",
                likesCount := some (toggleLike pub.likes caller).length },
         pubs.map (fun p => if p.id == pub.id then
             { pub with likes := toggleLike pub.likes caller } else p)) ∧
    Publication.findById (likePublication pubs id caller).2 id =
      some { pub with likes := toggleLike pub.likes caller } := by
  have hsave := Publication.findById_save { pub with likes := toggleLike pub.likes caller }
    hfind rfl (by rw [Publication.valid_likes]; exact hvalid)
  have h1 : likePublication pubs id caller =
        (some { status := 200,
                message := if (indexOf pub.likes caller).isSome then "Like retiré" else "Liké",
                likesCount := some (toggleLike pub.likes caller).length },
         pubs.map (fun p => if p.id == pub.id then
             { pub with likes := toggleLike pub.likes caller } else p)) := by
    simp only [likePublication, hfind, hsave.1]
  exact ⟨h1, by rw [h1]; exact hsave.2⟩

/-- C9: on a schema-valid publication whose likes list does not contain `u`, a first like
request by `u` answers `likesCount = n + 1` and stores the list with `u` appended; a second
one answers `likesCount = n` and stores the original list again. Membership of every other
user is the same in the three lists, and the other publications are never touched. -/
theorem like_twice_restores (pubs : List Publication) (id u : ObjectId) (pub : Publication)
    (hfind : Publication.findById pubs id = some pub) (hvalid : pub.valid = true)
    (hnot : u ∉ pub.likes) :
    (likePublication pubs id u).1 =
      some { status := 200, message := "Liké", likesCount := some (pub.likes.length + 1) } ∧
    Publication.findById (likePublication pubs id u).2 id =
      some { pub with likes := pub.likes ++ [u] } ∧
    (likePublication (likePublication pubs id u).2 id u).1 =
      some { status := 200, message := "Like retiré", likesCount := some pub.likes.length } ∧
    Publication.findById (likePublication (likePublication pubs id u).2 id u).2 id = some pub ∧
    (∀ v, v ≠ u → (v ∈ pub.likes ++ [u] ↔ v ∈ pub.likes)) ∧
    (∀ other, other ≠ id →
      Publication.findById (likePublication pubs id u).2 other =
        Publication.findById pubs other ∧
      Publication.findById (likePublication (likePublication pubs id u).2 id u).2 other =
        Publication.findById pubs other) := by
  have hid : pub.id = id := Publication.findById_id hfind
  have hnone : indexOf pub.likes u = none := (indexOf_eq_none_iff pub.likes u).mpr hnot
  have htog : toggleLike pub.likes u = pub.likes ++ [u] := toggleLike_absent pub.likes u hnot
  obtain ⟨h1, hf1⟩ := likePublication_found pubs id u pub hfind hvalid
  rw [htog] at h1 hf1
  have hvalid1 : ({ pub with likes := pub.likes ++ [u] } : Publication).valid = true := by
    rw [Publication.valid_likes]; exact hvalid
  obtain ⟨h2, hf2⟩ := likePublication_found (likePublication pubs id u).2 id u
    { pub with likes := pub.likes ++ [u] } hf1 hvalid1
  have htog2 : toggleLike (pub.likes ++ [u]) u = pub.likes := by
    rw [← htog]; exact toggleLike_twice pub.likes u hnot
  have hidx2 : indexOf (pub.likes ++ [u]) u = some pub.likes.length :=
    indexOf_push pub.likes u hnot
  simp only [htog2, hidx2] at h2 hf2
  refine ⟨?_, hf1, ?_, hf2, ?_, ?_⟩
  · rw [h1]; simp [hnone]
  · rw [h2]; simp
  · intro v hv; simp [hv]
  · intro other hother
    have hne : other ≠ pub.id := by rw [hid]; exact hother
    have e1 : Publication.findById (likePublication pubs id u).2 other =
        Publication.findById pubs other := by
      rw [h1]
      exact Publication.findById_save_ne pubs { pub with likes := pub.likes ++ [u] } other hne
    refine ⟨e1, ?_⟩
    rw [h2]
    have := Publication.findById_save_ne (likePublication pubs id u).2 pub other hne
    exact this.trans e1

/-- C9, at a concrete input: `bob` likes `samplePublication` twice. -/
theorem like_twice_restores_witness :
    Publication.findById
      (likePublication (likePublication [samplePublication] "64b7f0c2a1d3e4f5a6b7c8e0"
        "64b7f0c2a1d3e4f5a6b7c8da").2 "64b7f0c2a1d3e4f5a6b7c8e0" "64b7f0c2a1d3e4f5a6b7c8da").2
      "64b7f0c2a1d3e4f5a6b7c8e0" = some samplePublication :=
  (like_twice_restores [samplePublication] "64b7f0c2a1d3e4f5a6b7c8e0" "64b7f0c2a1d3e4f5a6b7c8da"
    samplePublication (by decide) (by decide) (by decide)).2.2.2.1

/-- One like request keeps every likes list of the collection free of repetitions. -/
theorem likePublication_nodup (pubs : List Publication) (id caller : ObjectId)
    (h : ∀ p ∈ pubs, p.likes.Nodup) : ∀ p ∈ (likePublication pubs id caller).2, p.likes.Nodup := by
  cases hfind : Publication.findById pubs id with
  | none =>
    have e : (likePublication pubs id caller).2 = pubs := by simp [likePublication, hfind]
    rw [e]; exact h
  | some pub =>
    by_cases hvalid : pub.valid = true
    · rw [(likePublication_found pubs id caller pub hfind hvalid).1]
      intro p hp
      simp only [List.mem_map] at hp
      obtain ⟨q, hq, rfl⟩ := hp
      split
      · exact toggleLike_nodup pub.likes caller (h pub (List.mem_of_find?_eq_some hfind))
      · exact h q hq
    · have hv : ({ pub with likes := toggleLike pub.likes caller } : Publication).valid
          = false := by
        rw [Publication.valid_likes]; simpa using hvalid
      have e : (likePublication pubs id caller).2 = pubs := by
        simp [likePublication, hfind, Publication.save, hv]
      rw [e]; exact h

/-- C10: the toggle keeps a likes list without repetition free of repetitions; so does a like
request, for every publication of the collection, whoever the caller and whatever the
publication addressed; hence after any sequence of like requests on a collection whose
publications all started with an empty likes list, no likes list contains a user twice. -/
theorem likes_nodup_invariant :
    (∀ (likes : List ObjectId) (u : ObjectId), likes.Nodup → (toggleLike likes u).Nodup) ∧
    (∀ (pubs : List Publication) (id u : ObjectId), (∀ p ∈ pubs, p.likes.Nodup) →
      ∀ p ∈ (likePublication pubs id u).2, p.likes.Nodup) ∧
    (∀ (pubs : List Publication) (reqs : List (ObjectId × ObjectId)),
      (∀ p ∈ pubs, p.likes = []) → ∀ p ∈ runLikes pubs reqs, p.likes.Nodup) := by
  refine ⟨toggleLike_nodup, likePublication_nodup, ?_⟩
  have run : ∀ (reqs : List (ObjectId × ObjectId)) (pubs : List Publication),
      (∀ p ∈ pubs, p.likes.Nodup) → ∀ p ∈ runLikes pubs reqs, p.likes.Nodup := by
    intro reqs
    induction reqs with
    | nil => intro pubs h; exact h
    | cons r rest ih =>
      intro pubs h
      exact ih _ (likePublication_nodup pubs r.1 r.2 h)
  intro pubs reqs hempty
  exact run reqs pubs (fun p hp => by rw [hempty p hp]; exact List.nodup_nil)

/-- C10, at a concrete input: `bob`, `ana`, then `bob` again like `samplePublication`. -/
theorem likes_nodup_invariant_witness :
    ∀ p ∈ runLikes [samplePublication]
        [("64b7f0c2a1d3e4f5a6b7c8e0", "64b7f0c2a1d3e4f5a6b7c8da"),
         ("64b7f0c2a1d3e4f5a6b7c8e0", "64b7f0c2a1d3e4f5a6b7c8d9"),
         ("64b7f0c2a1d3e4f5a6b7c8e0", "64b7f0c2a1d3e4f5a6b7c8da")],
      p.likes.Nodup :=
  likes_nodup_invariant.2.2 [samplePublication] _ (by decide)

/-! ## Publications: pagination -/

/-- A parameter that denotes `n` is read as `n` by `+param || dflt`. -/
theorem queryNumber_of_denotes (env : Env) (param : Option String) (dflt n : Nat)
    (hd : 1 ≤ dflt) (h : denotes env param dflt n) :
    queryNumber env param dflt = JsNumber.finite (n : Rat) ∧ 1 ≤ n := by
  rcases h with ⟨rfl, rfl⟩ | ⟨s, rfl, h⟩
  · exact ⟨rfl, hd⟩
  · rcases h with ⟨h0, rfl⟩ | ⟨hn, h1⟩
    · refine ⟨?_, hd⟩
      rcases h0 with h0 | h0 <;> simp [queryNumber, h0, JsNumber.truthy]
    · refine ⟨?_, h1⟩
      have hne : (n : Rat) ≠ 0 := by
        have : 0 < n := h1
        exact_mod_cast this.ne'
      simp [queryNumber, hn, JsNumber.truthy, hne]

theorem JsNumber.toNat?_natCast (n : Nat) : (JsNumber.finite (n : Rat)).toNat? = some n := by
  simp [JsNumber.toNat?]

/-- The value `ceilDiv total limit` is the least `k` with `total ≤ k * limit`. -/
theorem ceilDiv_le_iff (total limit k : Nat) (hl : 1 ≤ limit) :
    ceilDiv total limit ≤ k ↔ total ≤ k * limit := by
  unfold ceilDiv
  rw [← Nat.lt_succ_iff, Nat.div_lt_iff_lt_mul (by omega), Nat.succ_mul]
  generalize k * limit = m
  omega

/-- The value `ceilDiv total limit` is the ceiling of the quotient `total / limit`. -/
theorem ceilDiv_eq_ceil (total limit : Nat) (hl : 1 ≤ limit) :
    ceilDiv total limit = ⌈(total : Rat) / (limit : Rat)⌉₊ := by
  have hpos : (0 : Rat) < (limit : Rat) := by exact_mod_cast hl
  apply le_antisymm
  · rw [ceilDiv_le_iff total limit _ hl]
    have h := Nat.le_ceil ((total : Rat) / (limit : Rat))
    rw [div_le_iff₀ hpos] at h
    exact_mod_cast h
  · rw [Nat.ceil_le, div_le_iff₀ hpos]
    have h := (ceilDiv_le_iff total limit (ceilDiv total limit) hl).mp (Nat.le_refl _)
    exact_mod_cast h

theorem sortNewestFirst_perm (pubs : List Publication) : (sortNewestFirst pubs).Perm pubs :=
  List.perm_insertionSort _ pubs

theorem sortNewestFirst_sorted (pubs : List Publication) :
    (sortNewestFirst pubs).Sorted (fun a b => b.createdAt ≤ a.createdAt) := by
  haveI : IsTotal Publication (fun a b => b.createdAt ≤ a.createdAt) :=
    ⟨fun a b => Nat.le_total _ _⟩
  haveI : IsTrans Publication (fun a b => b.createdAt ≤ a.createdAt) :=
    ⟨fun _ _ _ hab hbc => Nat.le_trans hbc hab⟩
  exact List.sorted_insertionSort _ pubs

/-- C11: when the `page` parameter denotes `p` and the `limit` parameter denotes `l` (a
missing, zero or non-numeric page denotes 1, such a limit denotes 20, any other parameter a
positive integer), `GET /api/publications` answers with the slice of length at most `l`
starting at position `(p - 1) * l` of the active publications sorted newest first: entry `i`
of the page is entry `(p - 1) * l + i` of that list, the page has
`min l (total - (p - 1) * l)` entries, all of them active; `total` is the number of active
publications and `totalPages` is the ceiling of `total / l`. With 25 active publications,
page 2 and limit 10, the page has 10 entries and `totalPages` is 3. -/
theorem listPublications_page (env : Env) (pubs : List Publication)
    (page limit : Option String) (p l : Nat)
    (hp : denotes env page 1 p) (hl : denotes env limit 20 l) :
    listPublications env pubs page limit =
      some { publications :=
               ((sortNewestFirst (pubs.filter (fun x => x.isActive))).drop ((p - 1) * l)).take l
             currentPage := p
             totalPages := ceilDiv (pubs.filter (fun x => x.isActive)).length l
             total := (pubs.filter (fun x => x.isActive)).length } ∧
    (sortNewestFirst (pubs.filter (fun x => x.isActive))).Perm
      (pubs.filter (fun x => x.isActive)) ∧
    (sortNewestFirst (pubs.filter (fun x => x.isActive))).Sorted
      (fun a b => b.createdAt ≤ a.createdAt) ∧
    (∀ i, i < l →
      (((sortNewestFirst (pubs.filter (fun x => x.isActive))).drop ((p - 1) * l)).take l)[i]? =
        (sortNewestFirst (pubs.filter (fun x => x.isActive)))[(p - 1) * l + i]?) ∧
    (((sortNewestFirst (pubs.filter (fun x => x.isActive))).drop ((p - 1) * l)).take l).length =
      min l ((pubs.filter (fun x => x.isActive)).length - (p - 1) * l) ∧
    (∀ x ∈ ((sortNewestFirst (pubs.filter (fun x => x.isActive))).drop ((p - 1) * l)).take l,
      x ∈ pubs ∧ x.isActive = true) ∧
    ceilDiv (pubs.filter (fun x => x.isActive)).length l =
      ⌈((pubs.filter (fun x => x.isActive)).length : Rat) / (l : Rat)⌉₊ ∧
    ((pubs.filter (fun x => x.isActive)).length = 25 → p = 2 → l = 10 →
      (((sortNewestFirst (pubs.filter (fun x => x.isActive))).drop ((p - 1) * l)).take l).length
        = 10 ∧
      ceilDiv (pubs.filter (fun x => x.isActive)).length l = 3) := by
  obtain ⟨hpq, hp1⟩ := queryNumber_of_denotes env page 1 p (Nat.le_refl 1) hp
  obtain ⟨hlq, hl1⟩ := queryNumber_of_denotes env limit 20 l (by decide) hl
  have hperm := sortNewestFirst_perm (pubs.filter (fun x => x.isActive))
  have hlen : (((sortNewestFirst (pubs.filter (fun x => x.isActive))).drop
      ((p - 1) * l)).take l).length =
      min l ((pubs.filter (fun x => x.isActive)).length - (p - 1) * l) := by
    rw [List.length_take, List.length_drop, hperm.length_eq]
  refine ⟨?_, hperm, sortNewestFirst_sorted _, ?_, hlen, ?_, ceilDiv_eq_ceil _ _ hl1, ?_⟩
  · simp only [listPublications, hpq, hlq, JsNumber.toNat?_natCast]
  · intro i hi
    rw [List.getElem?_take_of_lt hi, List.getElem?_drop]
  · intro x hx
    have h1 : x ∈ sortNewestFirst (pubs.filter (fun x => x.isActive)) :=
      List.mem_of_mem_drop (List.mem_of_mem_take hx)
    have h2 := hperm.mem_iff.mp h1
    rw [List.mem_filter] at h2
    exact h2
  · intro h25 h2 h10
    rw [hlen, h25, h2, h10]
    exact ⟨by decide, by decide⟩

/-- C11, at a concrete input: one active publication, page `1`, limit `1`. -/
theorem listPublications_page_witness :
    listPublications Env.sample [samplePublication] (some "1") (some "1") =
      some { publications := [samplePublication], currentPage := 1, totalPages := 1,
             total := 1 } :=
  (listPublications_page Env.sample [samplePublication] (some "1") (some "1") 1 1
    (Or.inr ⟨"1", rfl, Or.inr ⟨by simp [Env.sample], Nat.le_refl 1⟩⟩)
    (Or.inr ⟨"1", rfl, Or.inr ⟨by simp [Env.sample], Nat.le_refl 1⟩⟩)).1

/-! ## Markers and employees: creation -/

/-- What holds of marker creation: when both coordinates are truthy (a non-empty string, or a
JSON number other than zero) and convert to Numbers other than `NaN`, and the title is not
blank, the answer is 201 and the stored marker has the caller as owner, the converted
coordinates, the trimmed title, and the color `#FF0000` unless a non-empty color was
supplied, which is stored unchanged. -/
theorem createMarker_created (env : Env) (store : MarkerStore) (caller : ObjectId)
    (body : MarkerCreate) (title : String) (newId : ObjectId) (now : Nat)
    (hlat : body.latitude.truthy = true) (hlng : body.longitude.truthy = true)
    (hlatn : body.latitude.parseFloat env ≠ JsNumber.nan)
    (hlngn : body.longitude.parseFloat env ≠ JsNumber.nan)
    (htitle : body.title = some title) (htrim : jsTrim title ≠ "") :
    ∃ marker,
      createMarker env store caller body newId now =
        (some { status := 201, message := "Marqueur créé", marker := some marker },
         { store with markers := store.markers ++ [marker] }) ∧
      marker.userId = caller ∧ marker.title = jsTrim title ∧
      marker.latitude = body.latitude.parseFloat env ∧
      marker.longitude = body.longitude.parseFloat env ∧
      (body.color = none → marker.color = "#FF0000") ∧
      (∀ color, body.color = some color → color ≠ "" → marker.color = color) := by
  have htr : truthy title = true := by
    by_cases h : title = ""
    · subst h; exact absurd (by decide) htrim
    · simpa [truthy] using h
  have hvalid : (newMarker env caller body newId now).valid = true := by
    simp [Marker.valid, newMarker, htitle, hlatn, hlngn, htrim]
  refine ⟨newMarker env caller body newId now, ?_, rfl, ?_, rfl, rfl, ?_, ?_⟩
  · simp [createMarker, hlat, hlng, htitle, optTruthy, htr, hvalid]
  · simp [newMarker, htitle]
  · intro hc; simp [newMarker, hc, optTruthy]
  · intro color hc hne; simp [newMarker, hc, optTruthy, truthy, hne]

/-- C12, evaluation at the failing input: a create-marker body with the JSON numbers
`latitude: 0`, `longitude: 3` and the title `Spot` is answered 400 and nothing is stored,
because `!latitude` is true for the number zero. -/
theorem createMarker_rejects_zero_latitude (env : Env) (store : MarkerStore)
    (caller newId : ObjectId) (now : Nat) :
    createMarker env store caller equatorMarker newId now =
      (some { status := 400, message := "Latitude, longitude et titre requis" }, store) := by
  simp [createMarker, equatorMarker, Field.truthy, JsNumber.truthy]

/-- What holds of create validation: a request in which a required field is absent or is the
empty string is answered 400 and nothing is stored, by each of the three create handlers; the
publication handler also rejects a content that is blank after trimming. -/
theorem create_rejects_missing (env : Env) (caller newId : ObjectId) (now : Nat) :
    (∀ (pubs : List Publication) (body : PublicationCreate),
      (body.content = none ∨ ∃ c, body.content = some c ∧ jsTrim c = "") →
      createPublication env pubs caller body newId now =
        (some { status := 400, message := "Contenu requis" }, pubs)) ∧
    (∀ (store : MarkerStore) (body : MarkerCreate),
      (body.latitude = Field.absent ∨ body.latitude = Field.text "" ∨
        body.longitude = Field.absent ∨ body.longitude = Field.text "" ∨
        body.title = none ∨ body.title = some "") →
      createMarker env store caller body newId now =
        (some { status := 400, message := "Latitude, longitude et titre requis" }, store)) ∧
    (∀ (employees : List Employee) (body : EmployeeBody),
      (body.name = none ∨ body.name = some "" ∨ body.email = none ∨ body.email = some "" ∨
        body.phone = none ∨ body.phone = some "") →
      createEmployee env employees body newId now =
        (some { status := 400, message := "Champs requis" }, employees)) := by
  refine ⟨?_, ?_, ?_⟩
  · intro pubs body h
    rcases h with h | ⟨c, h, hc⟩
    · simp [createPublication, h]
    · simp [createPublication, h, hc, truthy]
  · intro store body h
    rcases h with h | h | h | h | h | h <;>
      simp [createMarker, h, Field.truthy, optTruthy, truthy]
  · intro employees body h
    obtain ⟨name, email, phone, sd, ed, csd, ced, files⟩ := body
    simp only at h
    cases name with
    | none => rfl
    | some name =>
      cases email with
      | none => rfl
      | some email =>
        cases phone with
        | none => rfl
        | some phone =>
          have hguard : (!truthy name || !truthy email || !truthy phone) = true := by
            rcases h with h | h | h | h | h | h <;> simp_all [truthy]
          simp only [createEmployee]
          rw [if_pos hguard]

/-- C13, evaluation at the failing inputs: a create-marker request whose title consists of
spaces, and a create-employee request whose name consists of spaces, both pass the presence
test (which does not trim), fail schema validation in `save()` and are answered 500, not 400;
nothing is stored. -/
theorem create_blank_field_answers_500 (env : Env) (store : MarkerStore)
    (employees : List Employee) (caller newId : ObjectId) (now : Nat)
    (hfree : employees.find? (fun e => e.email == "eve@example.com") = none) :
    createMarker env store caller blankTitleMarker newId now =
      (some { status := 500, message := "Erreur serveur" }, store) ∧
    createEmployee env employees blankNameEmployee newId now =
      (some { status := 500, message := "Erreur serveur lors de la création" }, employees) := by
  have htrim : jsTrim "   " = "" := by decide
  constructor
  · simp [createMarker, blankTitleMarker, Field.truthy, JsNumber.truthy, optTruthy, truthy,
      newMarker, Marker.valid, htrim, serverError]
  · simp [createEmployee, blankNameEmployee, truthy, hfree, dateField, Employee.insert,
      Employee.valid, htrim]

/-- C13, at a concrete input: an empty employees collection. -/
theorem create_blank_field_answers_500_witness :
    createMarker Env.sample sampleMarkerStore "64b7f0c2a1d3e4f5a6b7c8d9" blankTitleMarker
        "64b7f0c2a1d3e4f5a6b7c8f1" 2000 =
      (some { status := 500, message := "Erreur serveur" }, sampleMarkerStore) ∧
    createEmployee Env.sample [] blankNameEmployee "64b7f0c2a1d3e4f5a6b7c8f1" 2000 =
      (some { status := 500, message := "Erreur serveur lors de la création" }, []) :=
  create_blank_field_answers_500 Env.sample sampleMarkerStore [] "64b7f0c2a1d3e4f5a6b7c8d9"
    "64b7f0c2a1d3e4f5a6b7c8f1" 2000 rfl

/-! ## Detaching an attachment -/

/-- What holds of the publication media handler: for the owner, an index that converts to a
Number below zero, or at least the length of the media list, is answered 400 and nothing is
removed or written. -/
theorem deletePublicationMedia_out_of_range (env : Env) (store : Store) (id caller : ObjectId)
    (pub : Publication) (mediaIndex : String) (now : Nat)
    (hfind : Publication.findById store.publications id = some pub)
    (howner : pub.userId = caller)
    (hout : (env.toNumber mediaIndex).ltNat 0 = true ∨
      (env.toNumber mediaIndex).geNat pub.media.length = true) :
    deletePublicationMedia env store id caller mediaIndex now =
      (some { status := 400, message := "Index invalide" }, store) := by
  have hguard : ((env.toNumber mediaIndex).ltNat 0 ||
      (env.toNumber mediaIndex).geNat pub.media.length) = true := by
    rcases hout with h | h <;> simp [h]
  simp only [deletePublicationMedia, hfind]
  rw [if_neg (by simp [howner]), if_pos hguard]

/-- What holds of the marker media handler: for the owner, a request whose type is neither
`photo` nor `video`, or whose index is read by `parseInt` as `NaN`, as a negative number or as
a number at least the length of the addressed list, is answered 400 and nothing is removed
or written. -/
theorem deleteMarkerMedia_invalid (env : Env) (store : MarkerStore) (id caller : ObjectId)
    (marker : Marker) (type index : String) (now : Nat)
    (hfind : Marker.findById store.markers id = some marker)
    (howner : marker.userId = caller)
    (hphoto : type = "photo" → (env.parseInt index).inRange marker.photos.length = false)
    (hvideo : type = "video" → (env.parseInt index).inRange marker.videos.length = false) :
    deleteMarkerMedia env store id caller type index now =
      (some { status := 400, message := "Type ou index invalide" }, store) := by
  have h1 : (type == "photo" && (env.parseInt index).inRange marker.photos.length) = false := by
    by_cases h : type = "photo"
    · simp [hphoto h]
    · simp [h]
  have h2 : (type == "video" && (env.parseInt index).inRange marker.videos.length) = false := by
    by_cases h : type = "video"
    · simp [hvideo h]
    · simp [h]
  simp only [deleteMarkerMedia, hfind]
  rw [if_neg (by simp [howner])]
  simp only [h1, h2, Bool.false_eq_true, if_false]

/-- C14, evaluation at the failing inputs. The owner of `samplePublication` (one media entry)
requests `DELETE .../media/abc`: the index converts to `NaN`, neither `idx < 0` nor
`idx >= length` holds, reading `pub.media[idx].filename` throws and no response is sent. The
owner of `sampleMarker` (two photos) requests `DELETE .../media/photo/1.5`: `parseInt` reads
`1`, and the second photo and its file are removed with a 200 answer. -/
theorem detach_invalid_index_not_rejected :
    deletePublicationMedia Env.sample sampleStore "64b7f0c2a1d3e4f5a6b7c8e0"
        "64b7f0c2a1d3e4f5a6b7c8d9" "abc" 2000 = (none, sampleStore) ∧
    deleteMarkerMedia Env.sample sampleMarkerStore "64b7f0c2a1d3e4f5a6b7c8f0"
        "64b7f0c2a1d3e4f5a6b7c8d9" "photo" "1.5" 2000 =
      (some { status := 200, message := "Média supprimé",
              marker := some { sampleMarker with
                photos := ["http://192.168.1.10:5000/uploads/markers/marker-1.png"],
                updatedAt := 2000 } },
       { markers := [{ sampleMarker with
                photos := ["http://192.168.1.10:5000/uploads/markers/marker-1.png"],
                updatedAt := 2000 }],
         files := ["uploads/markers/marker-1.png", "uploads/profile-1.png"] }) := by
  constructor <;> decide

/-! ## Upload file filters -/

theorem contains_eq_false_iff (xs : List String) (x : String) :
    xs.contains x = false ↔ x ∉ xs := by
  simp

/-- C15, refuted as stated: a publication upload (and a marker upload) named `clip.mp4` and
declared as `application/octet-stream` is rejected, although its extension is that of a
video: these two filters read the declared content type only. -/
theorem media_filter_rejects_by_content_type :
    Env.sample.toLowerCase (Env.sample.extname "clip.mp4") = ".mp4" ∧
    publicationUpload.fileFilter
      { originalname := "clip.mp4", mimetype := "application/octet-stream" } = false ∧
    markerUpload.fileFilter
      { originalname := "clip.mp4", mimetype := "application/octet-stream" } = false := by
  decide

/-- C15, amended: the profile image filter and the employee document filter reject a file if
and only if both its declared content type and its lower-cased file name extension are
outside the filter's lists; the publication media filter and the marker media filter reject
a file if and only if its declared content type is outside their list, whatever its
extension. -/
theorem fileFilter_rejects_iff (env : Env) (file : IncomingFile) :
    (upload.fileFilter env file = false ↔
      file.mimetype ∉ upload.allowedMimes ∧
      env.toLowerCase (env.extname file.originalname) ∉ upload.allowedExtensions) ∧
    (employeeUpload.fileFilter env file = false ↔
      file.mimetype ∉ employeeUpload.allowed ∧
      env.toLowerCase (env.extname file.originalname) ∉ employeeUpload.extensions) ∧
    (publicationUpload.fileFilter file = false ↔ file.mimetype ∉ publicationUpload.allowed) ∧
    (markerUpload.fileFilter file = false ↔ file.mimetype ∉ publicationUpload.allowed) ∧
    (∀ other : IncomingFile, other.mimetype = file.mimetype →
      publicationUpload.fileFilter other = publicationUpload.fileFilter file ∧
      markerUpload.fileFilter other = markerUpload.fileFilter file) := by
  refine ⟨?_, ?_, ?_, ?_, ?_⟩
  · simp only [upload.fileFilter, Bool.or_eq_false_iff, contains_eq_false_iff]
  · simp only [employeeUpload.fileFilter, Bool.or_eq_false_iff, contains_eq_false_iff]
  · simp only [publicationUpload.fileFilter, contains_eq_false_iff]
  · simp only [markerUpload.fileFilter, contains_eq_false_iff]
  · intro other h
    simp only [publicationUpload.fileFilter, markerUpload.fileFilter, h, and_self]

/-- C15 amended, at a concrete input: a profile image named `photo.PNG` declared as
`application/octet-stream` is not rejected. -/
theorem fileFilter_rejects_iff_witness :
    ¬ upload.fileFilter Env.sample
      { originalname := "photo.PNG", mimetype := "application/octet-stream" } = false :=
  fun h => ((fileFilter_rejects_iff Env.sample
    { originalname := "photo.PNG", mimetype := "application/octet-stream" }).1.mp h).2
    (by decide)

/-! ## Server address -/

/-- What holds of the address selection: the result is `127.0.0.1` or the address of a
non-internal IPv4 entry of the table. -/
theorem getLocalNetworkIP_source (interfaces : List (String × List NetworkAlias)) :
    getLocalNetworkIP interfaces = "127.0.0.1" ∨
    ∃ iface ∈ interfaces, ∃ a ∈ iface.2,
      a.address = getLocalNetworkIP interfaces ∧ a.family = "IPv4" ∧ a.internal = false := by
  unfold getLocalNetworkIP
  cases h1 : interfaces.findSome? (fun iface => iface.2.find? preferredAlias) with
  | some a =>
    right
    obtain ⟨iface, hmem, hfind⟩ := List.exists_of_findSome?_eq_some h1
    have hp := List.find?_some hfind
    simp only [preferredAlias, Bool.and_eq_true, beq_iff_eq, Bool.not_eq_true'] at hp
    exact ⟨iface, hmem, a, List.mem_of_find?_eq_some hfind, rfl, hp.1.1, hp.1.2⟩
  | none =>
    cases h2 : interfaces.findSome? (fun iface => iface.2.find? fallbackAlias) with
    | some a =>
      right
      obtain ⟨iface, hmem, hfind⟩ := List.exists_of_findSome?_eq_some h2
      have hp := List.find?_some hfind
      simp only [fallbackAlias, Bool.and_eq_true, beq_iff_eq, Bool.not_eq_true'] at hp
      exact ⟨iface, hmem, a, List.mem_of_find?_eq_some hfind, rfl, hp.1, hp.2⟩
    | none => left; rfl

/-- C16, evaluation at the failing input: for a table listing the non-internal IPv4 address
`172.32.0.5` (outside every private range) before the private address `192.168.1.2`, the
function returns `172.32.0.5`: its first loop accepts every address starting with `172.`. -/
theorem getLocalNetworkIP_returns_public_172 :
    getLocalNetworkIP sampleInterfaces = "172.32.0.5" ∧
    specPrivateRange "172.32.0.5" = false ∧
    specPrivateRange "192.168.1.2" = true := by
  decide

/-! ## Account removal -/

theorem User.findById_erased (users : List User) (id : ObjectId) :
    User.findById (User.findByIdAndDelete users id) id = none := by
  simp [User.findById, User.findByIdAndDelete]

theorem unlinkIfExists_eq_filter (files : List String) (path : String) :
    unlinkIfExists files path = files.filter (fun f => f != path) := by
  unfold unlinkIfExists
  split
  · rfl
  · rename_i h
    symm
    rw [List.filter_eq_self]
    intro f hf
    have : f ≠ path := fun e => h (by simpa [e] using hf)
    simpa using this

/-- What holds of account removal: when the privileged operator deletes a user who is not on
the allowlist, the record is gone and so is the file at the user’s `profileImage` path. -/
theorem deleteUser_cascades (env : Env) (store : UserStore) (id : ObjectId) (user : User)
    (hfind : User.findById store.users id = some user)
    (hnot : env.toLowerCase user.email ∉ allowed) (himage : user.profileImage ≠ "") :
    (deleteUser env store id).1 = some { status := 200, message := "Utilisateur supprimé" } ∧
    User.findById (deleteUser env store id).2.users id = none ∧
    user.profileImage ∉ (deleteUser env store id).2.files := by
  have htr : truthy user.profileImage = true := by simpa [truthy] using himage
  have h : deleteUser env store id =
      (some { status := 200, message := "Utilisateur supprimé" },
       { users := User.findByIdAndDelete store.users id,
         files := unlinkIfExists store.files user.profileImage }) := by
    simp [deleteUser, hfind, hnot, htr]
  rw [h]
  refine ⟨rfl, User.findById_erased _ _, ?_⟩
  simp [unlinkIfExists_eq_filter]

/-- C17, evaluation at the failing input: `userWithImage` has the profile image
`uploads/profile-1.png`, which exists on disk; after the user’s own
`DELETE /api/user/delete-account` the record is gone and the file is still there. -/
theorem deleteAccount_leaves_profile_image :
    User.findById sampleUserStore.users "64b7f0c2a1d3e4f5a6b7c8dc" = some userWithImage ∧
    deleteAccount sampleUserStore "64b7f0c2a1d3e4f5a6b7c8dc" =
      (some { status := 200, message := "Compte supprimé" },
       { users := [], files := ["uploads/profile-1.png"] }) ∧
    (∀ (store : UserStore) (caller : ObjectId),
      (deleteAccount store caller).2.files = store.files) := by
  refine ⟨by decide, by decide, fun _ _ => rfl⟩

/-! ## Missing records -/

/-- The like handler and the publication media handler on an id that matches no
publication: reading a property of `null` throws and no response is sent. -/
theorem publication_missing_throws (env : Env) (store : Store) (id caller : ObjectId)
    (mediaIndex : String) (now : Nat)
    (hfind : Publication.findById store.publications id = none) :
    likePublication store.publications id caller = (none, store.publications) ∧
    deletePublicationMedia env store id caller mediaIndex now = (none, store) := by
  simp [likePublication, deletePublicationMedia, hfind]

/-- C18, refuted as stated: `PUT /api/publications/:id` and `DELETE /api/publications/:id`
with an id that matches no publication answer 403, not 404. -/
theorem publication_missing_answers_403 :
    Publication.findById sampleStore.publications "64b7f0c2a1d3e4f5a6b7c8ff" = none ∧
    updatePublication Env.sample sampleStore "64b7f0c2a1d3e4f5a6b7c8ff"
        "64b7f0c2a1d3e4f5a6b7c8d9" sampleUpdate 2000 =
      (some { status := 403, message := "Accès refusé" }, sampleStore) ∧
    deletePublication sampleStore "64b7f0c2a1d3e4f5a6b7c8ff" "64b7f0c2a1d3e4f5a6b7c8d9" =
      (some { status := 403, message := "Accès refusé" }, sampleStore) := by
  decide

/-- C18, amended: for an id that matches no record, `GET /api/publications/:id`, the two
comment handlers (the POST one for a content that is not blank), the four marker handlers,
the two employee handlers and the two user-management handlers (the status one for a valid
status) answer 404 and write nothing, while `PUT` and `DELETE /api/publications/:id` answer
403 and write nothing. -/
theorem missing_record_status (env : Env) (id caller : ObjectId) (now : Nat) :
    (∀ pubs : List Publication, Publication.findById pubs id = none →
      getPublication pubs id = some { status := 404, message := "Non trouvée" } ∧
      getComments pubs id = some { status := 404, message := "Publication non trouvée" } ∧
      ∀ content, jsTrim content ≠ "" →
        addComment pubs id caller (some content) now =
          (some { status := 404, message := "Publication non trouvée" }, pubs)) ∧
    (∀ store : Store, Publication.findById store.publications id = none →
      (∀ body, updatePublication env store id caller body now =
        (some { status := 403, message := "Accès refusé" }, store)) ∧
      deletePublication store id caller =
        (some { status := 403, message := "Accès refusé" }, store)) ∧
    (∀ store : MarkerStore, Marker.findById store.markers id = none →
      getMarker store.markers id = some { status := 404, message := "Marqueur non trouvé" } ∧
      (∀ body, updateMarker env store id caller body now =
        (some { status := 404, message := "Marqueur non trouvé" }, store)) ∧
      deleteMarker env store id caller =
        (some { status := 404, message := "Marqueur non trouvé" }, store) ∧
      (∀ type index, deleteMarkerMedia env store id caller type index now =
        (some { status := 404, message := "Marqueur non trouvé" }, store))) ∧
    (∀ store : EmployeeStore, Employee.findById store.employees id = none →
      (∀ body, updateEmployee env store id body now =
        (some { status := 404, message := "Employé non trouvé" }, store)) ∧
      deleteEmployee store id =
        (some { status := 404, message := "Employé non trouvé" }, store)) ∧
    (∀ store : UserStore, User.findById store.users id = none →
      deleteUser env store id =
        (some { status := 404, message := "Utilisateur non trouvé" }, store) ∧
      (∀ status, status ∈ ["active", "blocked", "admin"] →
        updateUserStatus env store.users id (some status) =
          (some { status := 404, message := "Utilisateur non trouvé" }, store.users))) := by
  refine ⟨?_, ?_, ?_, ?_, ?_⟩
  · intro pubs h
    refine ⟨by simp [getPublication, h], by simp [getComments, h], ?_⟩
    intro content hc
    have : truthy (jsTrim content) = true := by simpa [truthy] using hc
    simp [addComment, this, h]
  · intro store h
    exact ⟨fun body => by simp [updatePublication, h, accessDenied],
      by simp [deletePublication, h, accessDenied]⟩
  · intro store h
    exact ⟨by simp [getMarker, h], fun body => by simp [updateMarker, h],
      by simp [deleteMarker, h], fun type index => by simp [deleteMarkerMedia, h]⟩
  · intro store h
    exact ⟨fun body => by simp [updateEmployee, h], by simp [deleteEmployee, h]⟩
  · intro store h
    refine ⟨by simp [deleteUser, h], ?_⟩
    intro status hs
    have : ["active", "blocked", "admin"].contains status = true := by simpa using hs
    simp only [updateUserStatus, this, h]
    simp

/-- C18 amended, at a concrete input: a marker id that matches no marker. -/
theorem missing_record_status_witness :
    deleteMarker Env.sample sampleMarkerStore "64b7f0c2a1d3e4f5a6b7c8ff"
        "64b7f0c2a1d3e4f5a6b7c8d9" =
      (some { status := 404, message := "Marqueur non trouvé" }, sampleMarkerStore) :=
  ((missing_record_status Env.sample "64b7f0c2a1d3e4f5a6b7c8ff" "64b7f0c2a1d3e4f5a6b7c8d9"
    2000).2.2.1 sampleMarkerStore (by decide)).2.2.1

/-! ## Marker deletion -/

theorem removeFirstChars_append (pattern rest : List Char) :
    removeFirstChars pattern (pattern ++ rest) = rest := by
  cases h : pattern ++ rest with
  | nil =>
    have := List.append_eq_nil.mp h
    rw [this.2]; rfl
  | cons c cs =>
    have hp : pattern.isPrefixOf (c :: cs) = true := by
      rw [← h]; simp
    simp only [removeFirstChars, hp, if_true]
    rw [← h, List.drop_left]

/-- Stripping `BASE_URL + '/'` from a URL built as `BASE_URL + '/' + rel` gives `rel`. -/
theorem mediaPath_built (env : Env) (rel : String) :
    mediaPath env (env.baseUrl ++ "/" ++ rel) = rel := by
  simp only [mediaPath, String.data_append]
  rw [removeFirstChars_append]

theorem mem_unlinkAll (env : Env) (urls : List String) (files : List String) (f : String) :
    f ∈ unlinkAll env files urls ↔ f ∈ files ∧ f ∉ urls.map (mediaPath env) := by
  induction urls generalizing files with
  | nil => simp [unlinkAll]
  | cons url rest ih =>
    have step : unlinkAll env files (url :: rest) =
        unlinkAll env (unlinkIfExists files (mediaPath env url)) rest := rfl
    rw [step, ih, unlinkIfExists_eq_filter]
    simp only [List.mem_filter, bne_iff_ne, ne_eq, List.map_cons, List.mem_cons, not_or]
    tauto

theorem Marker.findById_removed (markers : List Marker) (id : ObjectId) :
    Marker.findById (Marker.findByIdAndDelete markers id) id = none := by
  simp [Marker.findById, Marker.findByIdAndDelete]

/-- C19: for a marker owned by the caller whose photo and video URLs are
`BASE_URL + '/' + rel` for the relative paths `rels`, `DELETE /api/markers/:id` answers 200
(whether or not the files exist), leaves no marker with that id, keeps every other marker,
and the files present afterwards are exactly the files present before that are not among
`rels`. -/
theorem deleteMarker_removes_files (env : Env) (store : MarkerStore) (id caller : ObjectId)
    (marker : Marker) (rels : List String)
    (hfind : Marker.findById store.markers id = some marker)
    (howner : marker.userId = caller)
    (hurls : marker.photos ++ marker.videos = rels.map (fun rel => env.baseUrl ++ "/" ++ rel)) :
    (deleteMarker env store id caller).1 =
      some { status := 200, message := "Marqueur supprimé" } ∧
    Marker.findById (deleteMarker env store id caller).2.markers id = none ∧
    (∀ m, m ∈ (deleteMarker env store id caller).2.markers ↔ m ∈ store.markers ∧ m.id ≠ id) ∧
    (∀ f, f ∈ (deleteMarker env store id caller).2.files ↔ f ∈ store.files ∧ f ∉ rels) := by
  have h : deleteMarker env store id caller =
      (some { status := 200, message := "Marqueur supprimé" },
       { markers := Marker.findByIdAndDelete store.markers id,
         files := unlinkAll env (unlinkAll env store.files marker.photos) marker.videos }) := by
    simp [deleteMarker, hfind, howner]
  have hpaths : (marker.photos ++ marker.videos).map (mediaPath env) = rels := by
    rw [hurls, List.map_map]
    have : (mediaPath env ∘ fun rel => env.baseUrl ++ "/" ++ rel) = fun rel => rel := by
      funext rel
      exact mediaPath_built env rel
    rw [this, List.map_id']
  rw [h]
  refine ⟨rfl, Marker.findById_removed _ _, ?_, ?_⟩
  · intro m
    simp [Marker.findByIdAndDelete]
  · intro f
    simp only [mem_unlinkAll]
    rw [← hpaths, List.map_append, List.mem_append]
    tauto

/-- C19, at a concrete input: deleting `sampleMarker` keeps the unrelated file and leaves no
marker with that id. -/
theorem deleteMarker_removes_files_witness :
    "uploads/profile-1.png" ∈ (deleteMarker Env.sample sampleMarkerStore
        "64b7f0c2a1d3e4f5a6b7c8f0" "64b7f0c2a1d3e4f5a6b7c8d9").2.files ∧
    Marker.findById (deleteMarker Env.sample sampleMarkerStore
        "64b7f0c2a1d3e4f5a6b7c8f0" "64b7f0c2a1d3e4f5a6b7c8d9").2.markers
      "64b7f0c2a1d3e4f5a6b7c8f0" = none :=
  ⟨((deleteMarker_removes_files Env.sample sampleMarkerStore "64b7f0c2a1d3e4f5a6b7c8f0"
      "64b7f0c2a1d3e4f5a6b7c8d9" sampleMarker
      ["uploads/markers/marker-1.png", "uploads/markers/marker-2.png"]
      (by decide) (by decide) (by decide)).2.2.2 "uploads/profile-1.png").mpr
      ⟨by decide, by decide⟩,
   (deleteMarker_removes_files Env.sample sampleMarkerStore "64b7f0c2a1d3e4f5a6b7c8f0"
      "64b7f0c2a1d3e4f5a6b7c8d9" sampleMarker
      ["uploads/markers/marker-1.png", "uploads/markers/marker-2.png"]
      (by decide) (by decide) (by decide)).2.1⟩

/-! ## Failures inside handlers -/

/-- C20, evaluation at the failing input: when the OTP mail of `POST /api/auth/login` cannot
be sent, the handler (which has no `try`) rejects without sending any response, after the
new code has been saved; no 500 is answered. -/
theorem login_mail_failure_unhandled :
    (login [pendingUser] "ana@example.com" 654321 1000 false).1 = none ∧
    (login [pendingUser] "ana@example.com" 654321 1000 false).2 =
      [{ pendingUser with otp := some (generateOTP 654321), otpExpires := some 601000 }] := by
  constructor <;> simp [login, User.findOne, User.save, pendingUser]

/-! ## OTP values -/

theorem toDigitsCore_succ (fuel n : Nat) (ds : List Char) :
    Nat.toDigitsCore 10 (fuel + 1) n ds =
      if n / 10 = 0 then Nat.digitChar (n % 10) :: ds
      else Nat.toDigitsCore 10 fuel (n / 10) (Nat.digitChar (n % 10) :: ds) := by
  simp [Nat.toDigitsCore]

/-- The characters of the code for a six-digit draw. -/
theorem generateOTP_data (draw : Nat) (hlo : 100000 ≤ draw) (hhi : draw < 1000000) :
    (generateOTP draw).data =
      [Nat.digitChar (draw / 100000), Nat.digitChar (draw / 10000 % 10),
       Nat.digitChar (draw / 1000 % 10), Nat.digitChar (draw / 100 % 10),
       Nat.digitChar (draw / 10 % 10), Nat.digitChar (draw % 10)] := by
  have hfuel : draw + 1 = (draw - 5) + 1 + 1 + 1 + 1 + 1 + 1 := by omega
  have h1 : draw / 10 ≠ 0 := by omega
  have h2 : draw / 10 / 10 ≠ 0 := by omega
  have h3 : draw / 10 / 10 / 10 ≠ 0 := by omega
  have h4 : draw / 10 / 10 / 10 / 10 ≠ 0 := by omega
  have h5 : draw / 10 / 10 / 10 / 10 / 10 ≠ 0 := by omega
  have h6 : draw / 10 / 10 / 10 / 10 / 10 / 10 = 0 := by omega
  have e6 : draw / 100000 % 10 = draw / 100000 := by omega
  show (Nat.repr draw).data = _
  simp only [Nat.repr, Nat.toDigits, List.asString]
  rw [hfuel, toDigitsCore_succ, if_neg h1, toDigitsCore_succ, if_neg h2, toDigitsCore_succ,
    if_neg h3, toDigitsCore_succ, if_neg h4, toDigitsCore_succ, if_neg h5, toDigitsCore_succ,
    if_pos h6]
  simp only [Nat.div_div_eq_div_mul, Nat.reduceMul, e6]

theorem digitChar_inj :
    ∀ a, a < 10 → ∀ b, b < 10 → Nat.digitChar a = Nat.digitChar b → a = b := by
  decide

theorem digitChar_isDigit : ∀ a, a < 10 → (Nat.digitChar a).isDigit = true := by decide

theorem digitChar_ne_zero : ∀ a, a < 10 → a ≠ 0 → Nat.digitChar a ≠ '0' := by decide

/-- Two six-digit draws with the same code are equal. -/
theorem generateOTP_injective (a b : Nat) (ha : 100000 ≤ a) (ha2 : a < 1000000)
    (hb : 100000 ≤ b) (hb2 : b < 1000000) (h : generateOTP a = generateOTP b) : a = b := by
  have hd : (generateOTP a).data = (generateOTP b).data := by rw [h]
  rw [generateOTP_data a ha ha2, generateOTP_data b hb hb2] at hd
  simp only [List.cons.injEq, and_true] at hd
  obtain ⟨h5, h4, h3, h2, h1, h0⟩ := hd
  have e5 := digitChar_inj _ (by omega) _ (by omega) h5
  have e4 := digitChar_inj _ (Nat.mod_lt _ (by decide)) _ (Nat.mod_lt _ (by decide)) h4
  have e3 := digitChar_inj _ (Nat.mod_lt _ (by decide)) _ (Nat.mod_lt _ (by decide)) h3
  have e2 := digitChar_inj _ (Nat.mod_lt _ (by decide)) _ (Nat.mod_lt _ (by decide)) h2
  have e1 := digitChar_inj _ (Nat.mod_lt _ (by decide)) _ (Nat.mod_lt _ (by decide)) h1
  have e0 := digitChar_inj _ (Nat.mod_lt _ (by decide)) _ (Nat.mod_lt _ (by decide)) h0
  omega

/-- What holds of the OTP codes: every possible code is a string of six decimal digits whose
first digit is not zero, and the possible codes are exactly the decimal strings of the
integers 100000 to 999998. -/
theorem possibleOTP_spec (code : String) :
    (possibleOTP code ↔ ∃ n, 100000 ≤ n ∧ n ≤ 999998 ∧ code = toString n) ∧
    (possibleOTP code →
      code.data.length = 6 ∧ (∀ c ∈ code.data, c.isDigit = true) ∧
      code.data.head? ≠ some '0') := by
  constructor
  · constructor
    · rintro ⟨draw, hlo, hhi, rfl⟩
      exact ⟨draw, hlo, by omega, rfl⟩
    · rintro ⟨n, hlo, hhi, rfl⟩
      exact ⟨n, hlo, by omega, rfl⟩
  · rintro ⟨draw, hlo, hhi, rfl⟩
    rw [generateOTP_data draw hlo (by omega)]
    refine ⟨rfl, ?_, ?_⟩
    · intro c hc
      simp only [List.mem_cons, List.mem_singleton, List.not_mem_nil, or_false] at hc
      rcases hc with rfl | rfl | rfl | rfl | rfl | rfl
      · exact digitChar_isDigit _ (by omega)
      all_goals exact digitChar_isDigit _ (Nat.mod_lt _ (by decide))
    · simp only [List.head?_cons, ne_eq, Option.some.injEq]
      exact digitChar_ne_zero _ (by omega) (by omega)

/-- C21, the value the code cannot produce: `999999` is the decimal string of the integer
999999, and no draw `n` with `100000 ≤ n < 999999` gives it, because the upper bound of
`crypto.randomInt(100000, 999999)` is exclusive. -/
theorem otp_999999_impossible :
    generateOTP 999999 = "999999" ∧ ¬ possibleOTP "999999" := by
  have hval : generateOTP 999999 = "999999" := by decide
  refine ⟨hval, ?_⟩
  rintro ⟨draw, hlo, hhi, h⟩
  have := generateOTP_injective draw 999999 hlo (by omega) (by decide) (by decide)
    (h.trans hval.symm)
  omega

/-! ## Markers: partial update -/

theorem Marker.findById_sameId {markers : List Marker} {id : ObjectId} {marker : Marker}
    (hfind : Marker.findById markers id = some marker) : marker.id = id := by
  have := List.find?_some hfind
  simpa using this

/-- After a document loaded by `id` is replaced, `findById id` returns the replacement. -/
theorem Marker.findById_replace {markers : List Marker} {id : ObjectId} {marker : Marker}
    (updated : Marker) (hfind : Marker.findById markers id = some marker)
    (hid : updated.id = marker.id) :
    Marker.findById (markers.map (fun m => if m.id == updated.id then updated else m)) id =
      some updated := by
  have hid1 : updated.id = id := by rw [hid]; exact Marker.findById_sameId hfind
  clear hid
  induction markers with
  | nil => simp [Marker.findById] at hfind
  | cons m rest ih =>
    simp only [Marker.findById, List.map_cons, List.find?_cons] at hfind ih ⊢
    by_cases hm : m.id = updated.id
    · simp [hm, hid1]
    · have hi : (m.id == updated.id) = false := by simpa using hm
      have hb : (m.id == id) = false := by rw [← hid1]; exact hi
      simp only [hb] at hfind
      simp only [hi, Bool.false_eq_true, if_false, hb]
      exact ih hfind

/-- C22, refuted as stated: a `PUT /api/markers/:id` request of the owner whose body holds a
title made of spaces is answered 500 and the marker keeps its title (and its `updatedAt`):
the title is present in the body and is not changed to the trimmed value. -/
theorem updateMarker_blank_title_unchanged :
    updateMarker Env.sample sampleMarkerStore "64b7f0c2a1d3e4f5a6b7c8f0"
        "64b7f0c2a1d3e4f5a6b7c8d9" blankTitleUpdate 2000 =
      (some { status := 500, message := "Erreur serveur" }, sampleMarkerStore) ∧
    Marker.findById sampleMarkerStore.markers "64b7f0c2a1d3e4f5a6b7c8f0" = some sampleMarker ∧
    sampleMarker.title = "Spot" := by
  decide

/-- C22, amended: for a marker owned by the caller (stored with valid coordinates and title)
and a `PUT /api/markers/:id` request whose title, if present, is not blank after trimming,
the answer is 200 and the saved marker has: the trimmed supplied title if a title is present,
else the old title; the trimmed supplied comment if a comment is present, else the old
comment; the supplied color verbatim if a color is present, else the old color; the old
latitude, longitude, owner, id and `createdAt`; the old photos followed by the URLs of the
uploaded photos, and likewise for videos; `updatedAt` equal to the time of the request. The
files on disk and the other markers are untouched. -/
theorem updateMarker_partial (env : Env) (store : MarkerStore) (id caller : ObjectId)
    (marker : Marker) (body : MarkerUpdate) (now : Nat)
    (hfind : Marker.findById store.markers id = some marker)
    (howner : marker.userId = caller) (hvalid : marker.valid = true)
    (htitle : ∀ title, body.title = some title → jsTrim title ≠ "") :
    ∃ updated,
      (updateMarker env store id caller body now).1 =
        some { status := 200, message := "Marqueur mis à jour", marker := some updated } ∧
      Marker.findById (updateMarker env store id caller body now).2.markers id = some updated ∧
      (updateMarker env store id caller body now).2.files = store.files ∧
      (∀ m, m ∈ store.markers → m.id ≠ id →
        m ∈ (updateMarker env store id caller body now).2.markers) ∧
      updated.title = (match body.title with
        | some title => jsTrim title
        | none => marker.title) ∧
      updated.comment = (match body.comment with
        | some comment => jsTrim comment
        | none => marker.comment) ∧
      updated.color = (match body.color with
        | some color => color
        | none => marker.color) ∧
      updated.latitude = marker.latitude ∧ updated.longitude = marker.longitude ∧
      updated.userId = marker.userId ∧ updated.id = marker.id ∧
      updated.createdAt = marker.createdAt ∧
      updated.photos = marker.photos ++ body.photos.map (fileUrl env) ∧
      updated.videos = marker.videos ++ body.videos.map (fileUrl env) ∧
      updated.updatedAt = now := by
  have hid : marker.id = id := Marker.findById_sameId hfind
  have hfields : (applyMarkerUpdate env marker body now).title = (match body.title with
        | some title => jsTrim title
        | none => marker.title) ∧
      (applyMarkerUpdate env marker body now).comment = (match body.comment with
        | some comment => jsTrim comment
        | none => marker.comment) ∧
      (applyMarkerUpdate env marker body now).color = (match body.color with
        | some color => color
        | none => marker.color) ∧
      (applyMarkerUpdate env marker body now).latitude = marker.latitude ∧
      (applyMarkerUpdate env marker body now).longitude = marker.longitude ∧
      (applyMarkerUpdate env marker body now).userId = marker.userId ∧
      (applyMarkerUpdate env marker body now).id = marker.id ∧
      (applyMarkerUpdate env marker body now).createdAt = marker.createdAt ∧
      (applyMarkerUpdate env marker body now).photos =
        marker.photos ++ body.photos.map (fileUrl env) ∧
      (applyMarkerUpdate env marker body now).videos =
        marker.videos ++ body.videos.map (fileUrl env) ∧
      (applyMarkerUpdate env marker body now).updatedAt = now := by
    obtain ⟨title, comment, color, photos, videos⟩ := body
    cases title <;> cases comment <;> cases color <;>
      simp [applyMarkerUpdate]
  have hv : (applyMarkerUpdate env marker body now).valid = true := by
    simp only [Marker.valid, Bool.and_eq_true, bne_iff_ne, ne_eq] at hvalid ⊢
    rw [hfields.2.2.2.1, hfields.2.2.2.2.1, hfields.1]
    refine ⟨⟨hvalid.1.1, hvalid.1.2⟩, ?_⟩
    cases ht : body.title with
    | none => exact hvalid.2
    | some title => exact htitle title ht
  have hrun : updateMarker env store id caller body now =
      (some { status := 200, message := "Marqueur mis à jour",
              marker := some (applyMarkerUpdate env marker body now) },
       { store with markers := store.markers.map (fun m =>
           if m.id == (applyMarkerUpdate env marker body now).id then
             applyMarkerUpdate env marker body now else m) }) := by
    simp [updateMarker, hfind, howner, Marker.save, hv]
  refine ⟨applyMarkerUpdate env marker body now, ?_, ?_, ?_, ?_, hfields⟩
  · rw [hrun]
  · rw [hrun]
    exact Marker.findById_replace _ hfind hfields.2.2.2.2.2.2.1
  · rw [hrun]
  · intro m hm hne
    rw [hrun]
    simp only [List.mem_map]
    refine ⟨m, hm, ?_⟩
    have : (m.id == (applyMarkerUpdate env marker body now).id) = false := by
      rw [hfields.2.2.2.2.2.2.1, hid]
      simpa using hne
    simp [this]

/-- C22 amended, at a concrete input: the owner of `sampleMarker` sets the comment and uploads
one photo. -/
theorem updateMarker_partial_witness :
    ∃ updated,
      (updateMarker Env.sample sampleMarkerStore "64b7f0c2a1d3e4f5a6b7c8f0"
        "64b7f0c2a1d3e4f5a6b7c8d9" commentUpdate 2000).1 =
        some { status := 200, message := "Marqueur mis à jour", marker := some updated } ∧
      updated.title = "Spot" ∧ updated.comment = "vue" ∧ updated.updatedAt = 2000 := by
  obtain ⟨updated, h1, _, _, _, ht, hc, _, _, _, _, _, _, _, _, hu⟩ :=
    updateMarker_partial Env.sample sampleMarkerStore "64b7f0c2a1d3e4f5a6b7c8f0"
      "64b7f0c2a1d3e4f5a6b7c8d9" sampleMarker commentUpdate 2000 (by decide) (by decide)
      (by decide) (by intro title h; cases h)
  exact ⟨updated, h1, ht, by rw [hc]; decide, hu⟩

/-! ## Publications: soft delete -/

/-- Every publication of a page returned by `GET /api/publications` is an active publication
of the collection. -/
theorem listPublications_mem (env : Env) (pubs : List Publication) (page limit : Option String)
    (result : PublicationPage) (h : listPublications env pubs page limit = some result) :
    ∀ x ∈ result.publications, x ∈ pubs ∧ x.isActive = true := by
  unfold listPublications at h
  split at h
  · rename_i p l _ _
    simp only [Option.some.injEq] at h
    subst h
    intro x hx
    have h1 : x ∈ sortNewestFirst (pubs.filter (fun p => p.isActive)) :=
      List.mem_of_mem_drop (List.mem_of_mem_take hx)
    have h2 := (sortNewestFirst_perm _).mem_iff.mp h1
    rw [List.mem_filter] at h2
    exact h2
  · cases h

/-- The files left by the `forEach` loop of the publication delete handler. -/
theorem mem_unlink_media (media : List Media) (files : List String) (f : String) :
    f ∈ media.foldl (fun fs m => unlinkIfExists fs (publicationFilePath m.filename)) files ↔
      f ∈ files ∧ f ∉ media.map (fun m => publicationFilePath m.filename) := by
  induction media generalizing files with
  | nil => simp
  | cons m rest ih =>
    rw [List.foldl_cons, ih, unlinkIfExists_eq_filter]
    simp only [List.mem_filter, bne_iff_ne, ne_eq, List.map_cons, List.mem_cons, not_or]
    tauto

/-- After a document is replaced, every stored document with its id is the replacement. -/
theorem mem_replace_id (pubs : List Publication) (updated x : Publication)
    (hx : x ∈ pubs.map (fun p => if p.id == updated.id then updated else p))
    (hid : x.id = updated.id) : x = updated := by
  simp only [List.mem_map] at hx
  obtain ⟨p, _, rfl⟩ := hx
  by_cases hp : p.id = updated.id
  · simp [hp]
  · have hb : (p.id == updated.id) = false := by simpa using hp
    simp only [hb, Bool.false_eq_true, if_false] at hid
    exact absurd hid hp

/-- The publication delete handler for the owner of a schema-valid publication. -/
theorem deletePublication_owner (store : Store) (id caller : ObjectId) (pub : Publication)
    (hfind : Publication.findById store.publications id = some pub)
    (howner : pub.userId = caller) (hvalid : pub.valid = true) :
    deletePublication store id caller =
      (some { status := 200, message := "Publication supprimée" },
       { publications := store.publications.map
           (fun p => if p.id == pub.id then { pub with isActive := false } else p),
         files := pub.media.foldl
           (fun fs m => unlinkIfExists fs (publicationFilePath m.filename)) store.files }) := by
  have hv : ({ pub with isActive := false } : Publication).valid = true := hvalid
  subst howner
  simp [deletePublication, hfind, Publication.save, hv]

/-- C23, refuted as stated: after the owner deleted `samplePublication`, a
`POST /api/publications/:id/comments` request for it whose content is empty is answered 400,
not 404: the content is validated before the publication is loaded. -/
theorem addComment_deleted_blank_answers_400 :
    (deletePublication sampleStore "64b7f0c2a1d3e4f5a6b7c8e0" "64b7f0c2a1d3e4f5a6b7c8d9").1 =
      some { status := 200, message := "Publication supprimée" } ∧
    (addComment
      (deletePublication sampleStore "64b7f0c2a1d3e4f5a6b7c8e0"
        "64b7f0c2a1d3e4f5a6b7c8d9").2.publications
      "64b7f0c2a1d3e4f5a6b7c8e0" "64b7f0c2a1d3e4f5a6b7c8da" (some "") 3000).1 =
      some { status := 400, message := "Commentaire requis" } := by
  decide

/-- C23, amended: after the owner's `DELETE /api/publications/:id` of a schema-valid
publication, the answer is 200 and the record still exists, with `isActive` false and every
other field unchanged; the files on disk are those present before that are not a file named
in the media list; the other publications are untouched. In the resulting state the
publication is in no page of `GET /api/publications` and in no answer of
`GET /api/publications/user/:userId`; `GET /api/publications/:id` and
`GET /api/publications/:id/comments` answer 404 for it, and so does
`POST /api/publications/:id/comments` for every content that is not blank, without writing
anything. -/
theorem deletePublication_soft (store : Store) (id caller : ObjectId) (pub : Publication)
    (now : Nat)
    (hfind : Publication.findById store.publications id = some pub)
    (howner : pub.userId = caller) (hvalid : pub.valid = true) :
    (deletePublication store id caller).1 =
      some { status := 200, message := "Publication supprimée" } ∧
    Publication.findById (deletePublication store id caller).2.publications id =
      some { pub with isActive := false } ∧
    (∀ f, f ∈ (deletePublication store id caller).2.files ↔
      f ∈ store.files ∧ f ∉ pub.media.map (fun m => publicationFilePath m.filename)) ∧
    (∀ other, other ≠ id →
      Publication.findById (deletePublication store id caller).2.publications other =
        Publication.findById store.publications other) ∧
    (∀ (env : Env) (page limit : Option String) (result : PublicationPage),
      listPublications env (deletePublication store id caller).2.publications page limit =
        some result → ∀ x ∈ result.publications, x.id ≠ id) ∧
    (∀ userId, ∀ x ∈ listUserPublications (deletePublication store id caller).2.publications
      userId, x.id ≠ id) ∧
    getPublication (deletePublication store id caller).2.publications id =
      some { status := 404, message := "Non trouvée" } ∧
    getComments (deletePublication store id caller).2.publications id =
      some { status := 404, message := "Publication non trouvée" } ∧
    (∀ commenter content, jsTrim content ≠ "" →
      addComment (deletePublication store id caller).2.publications id commenter
        (some content) now =
        (some { status := 404, message := "Publication non trouvée" },
         (deletePublication store id caller).2.publications)) := by
  have hid : pub.id = id := Publication.findById_id hfind
  have hrun := deletePublication_owner store id caller pub hfind howner hvalid
  have hfound := (Publication.findById_save { pub with isActive := false } hfind rfl hvalid).2
  have hinactive : ∀ x ∈ store.publications.map
      (fun p => if p.id == pub.id then { pub with isActive := false } else p),
      x.id = id → x.isActive = false := by
    intro x hx hxid
    have := mem_replace_id store.publications { pub with isActive := false } x hx
      (by rw [hxid]; exact hid.symm)
    rw [this]
  rw [hrun]
  refine ⟨rfl, hfound, ?_, ?_, ?_, ?_, ?_, ?_, ?_⟩
  · intro f
    exact mem_unlink_media pub.media store.files f
  · intro other hother
    exact Publication.findById_save_ne store.publications { pub with isActive := false } other
      (by rw [← hid] at hother; exact hother)
  · intro env page limit result hres x hx hxid
    have hmem := listPublications_mem env _ page limit result hres x hx
    have := hinactive x hmem.1 hxid
    rw [hmem.2] at this
    cases this
  · intro userId x hx hxid
    have h1 := (sortNewestFirst_perm _).mem_iff.mp hx
    rw [List.mem_filter] at h1
    have := hinactive x h1.1 hxid
    simp [this] at h1
  · simp only [getPublication, hfound]
    rfl
  · simp only [getComments, hfound]
    rfl
  · intro commenter content hc
    have htr : truthy (jsTrim content) = true := by simpa [truthy] using hc
    simp only [addComment, htr, hfound]
    rfl

/-- C23 amended, at a concrete input: the owner deletes `samplePublication`, whose record
stays with `isActive` false. -/
theorem deletePublication_soft_witness :
    Publication.findById
      (deletePublication sampleStore "64b7f0c2a1d3e4f5a6b7c8e0"
        "64b7f0c2a1d3e4f5a6b7c8d9").2.publications "64b7f0c2a1d3e4f5a6b7c8e0" =
      some { samplePublication with isActive := false } :=
  (deletePublication_soft sampleStore "64b7f0c2a1d3e4f5a6b7c8e0" "64b7f0c2a1d3e4f5a6b7c8d9"
    samplePublication 3000 (by decide) (by decide) (by decide)).2.1

/-! ## Tag parsing -/

/-- No piece of a split contains the separator. -/
theorem splitCharsAux_no_sep (sep : Char) (cs cur : List Char) (hcur : sep ∉ cur) :
    ∀ piece ∈ splitCharsAux sep cs cur, sep ∉ piece := by
  induction cs generalizing cur with
  | nil =>
    intro piece hp
    simp only [splitCharsAux, List.mem_singleton] at hp
    subst hp
    simpa using hcur
  | cons c rest ih =>
    intro piece hp
    by_cases hc : c = sep
    · simp only [splitCharsAux, hc, beq_self_eq_true, if_true, List.mem_cons] at hp
      rcases hp with rfl | hp
      · simpa using hcur
      · exact ih [] (List.not_mem_nil _) piece hp
    · have hb : (c == sep) = false := by simpa using hc
      simp only [splitCharsAux, hb, Bool.false_eq_true, if_false] at hp
      refine ih (c :: cur) ?_ piece hp
      intro hmem
      rcases List.mem_cons.mp hmem with h | h
      · exact hc h.symm
      · exact hcur h

/-- Splitting reads a piece without separator into the accumulator. -/
theorem splitCharsAux_append (sep : Char) (piece rest cur : List Char) (hp : sep ∉ piece) :
    splitCharsAux sep (piece ++ rest) cur = splitCharsAux sep rest (piece.reverse ++ cur) := by
  induction piece generalizing cur with
  | nil => rfl
  | cons c cs ih =>
    have hc : (c == sep) = false := by
      have : c ≠ sep := fun h => hp (by simp [h])
      simpa using this
    have hcs : sep ∉ cs := fun h => hp (List.mem_cons_of_mem _ h)
    simp only [List.cons_append, splitCharsAux, hc, Bool.false_eq_true, if_false]
    show splitCharsAux sep (cs ++ rest) (c :: cur) = _
    rw [ih (c :: cur) hcs]
    simp

/-- Splitting the join of a non-empty list of pieces without separator gives the pieces. -/
theorem splitCharsAux_join (sep : Char) (pieces : List (List Char)) (hne : pieces ≠ [])
    (hp : ∀ piece ∈ pieces, sep ∉ piece) :
    splitCharsAux sep (joinChars sep pieces) [] = pieces := by
  induction pieces with
  | nil => exact absurd rfl hne
  | cons piece rest ih =>
    cases rest with
    | nil =>
      have h := splitCharsAux_append sep piece [] [] (hp piece (by simp))
      simp only [List.append_nil] at h
      simp only [joinChars, h, splitCharsAux, List.reverse_reverse]
    | cons next rest =>
      have h := splitCharsAux_append sep piece (sep :: joinChars sep (next :: rest)) []
        (hp piece (by simp))
      simp only [List.append_nil] at h
      simp only [joinChars, h, splitCharsAux, beq_self_eq_true, if_true, List.reverse_reverse]
      rw [ih (by simp) (fun q hq => hp q (List.mem_cons_of_mem _ hq))]

theorem getLast?_dropWhile (p : Char → Bool) (cs : List Char) (h : cs.dropWhile p ≠ []) :
    (cs.dropWhile p).getLast? = cs.getLast? := by
  induction cs with
  | nil => rfl
  | cons c rest ih =>
    by_cases hc : p c = true
    · rw [List.dropWhile_cons_of_pos hc] at h ⊢
      rw [ih h]
      cases rest with
      | nil => simp at h
      | cons d ds => simp [List.getLast?_cons_cons]
    · rw [List.dropWhile_cons_of_neg hc]

/-- A trimmed list of characters starts and ends with a character that is not white space,
and holds only characters of the original. -/
theorem trimChars_spec (cs : List Char) :
    (∀ c, (trimChars cs).head? = some c → isJsWhitespace c = false) ∧
    (∀ c, (trimChars cs).getLast? = some c → isJsWhitespace c = false) ∧
    (∀ c, c ∈ trimChars cs → c ∈ cs) := by
  refine ⟨?_, ?_, ?_⟩
  · intro c hc
    simp only [trimChars, List.head?_reverse] at hc
    by_cases hne : (cs.dropWhile isJsWhitespace).reverse.dropWhile isJsWhitespace = []
    · rw [hne] at hc; cases hc
    · rw [getLast?_dropWhile _ _ hne, List.getLast?_reverse] at hc
      have := List.head?_dropWhile_not isJsWhitespace cs
      rw [hc] at this
      simpa using this
  · intro c hc
    simp only [trimChars, List.getLast?_reverse] at hc
    have := List.head?_dropWhile_not isJsWhitespace (cs.dropWhile isJsWhitespace).reverse
    rw [hc] at this
    simpa using this
  · intro c hc
    simp only [trimChars, List.mem_reverse] at hc
    have h1 := (List.dropWhile_sublist isJsWhitespace).subset hc
    rw [List.mem_reverse] at h1
    exact (List.dropWhile_sublist isJsWhitespace).subset h1

theorem dropWhile_of_head (p : Char → Bool) (cs : List Char)
    (h : ∀ c, cs.head? = some c → p c = false) : cs.dropWhile p = cs := by
  cases cs with
  | nil => rfl
  | cons c rest =>
    have hc := h c rfl
    rw [List.dropWhile_cons_of_neg (by simp [hc])]

/-- Trimming leaves a list unchanged when it neither starts nor ends with white space. -/
theorem trimChars_fixed (cs : List Char)
    (hhead : ∀ c, cs.head? = some c → isJsWhitespace c = false)
    (hlast : ∀ c, cs.getLast? = some c → isJsWhitespace c = false) : trimChars cs = cs := by
  unfold trimChars
  rw [dropWhile_of_head _ cs hhead,
    dropWhile_of_head _ cs.reverse (by rw [List.head?_reverse]; exact hlast),
    List.reverse_reverse]

/-- The pieces kept by the parser are non-empty, trimmed and free of commas. -/
theorem parseTagChars_spec (cs : List Char) :
    ∀ piece ∈ parseTagChars cs,
      piece ≠ [] ∧ (∀ c, piece.head? = some c → isJsWhitespace c = false) ∧
      (∀ c, piece.getLast? = some c → isJsWhitespace c = false) ∧ ',' ∉ piece := by
  intro piece hp
  simp only [parseTagChars, List.mem_filter, List.mem_map, bne_iff_ne, ne_eq] at hp
  obtain ⟨⟨raw, hraw, rfl⟩, hne⟩ := hp
  refine ⟨hne, (trimChars_spec raw).1, (trimChars_spec raw).2.1, ?_⟩
  intro hmem
  exact splitCharsAux_no_sep ',' cs [] (List.not_mem_nil _) raw hraw
    ((trimChars_spec raw).2.2 _ hmem)

/-- Parsing the join of the parsed pieces gives the parsed pieces again. -/
theorem parseTagChars_join (cs : List Char) :
    parseTagChars (joinChars ',' (parseTagChars cs)) = parseTagChars cs := by
  by_cases hempty : parseTagChars cs = []
  · rw [hempty]; decide
  · have hspec := parseTagChars_spec cs
    have hsplit := splitCharsAux_join ',' (parseTagChars cs) hempty
      (fun piece hp => (hspec piece hp).2.2.2)
    have hmap : (parseTagChars cs).map trimChars = parseTagChars cs := by
      conv_rhs => rw [← List.map_id (parseTagChars cs)]
      apply List.map_congr_left
      intro piece hp
      exact trimChars_fixed piece (hspec piece hp).2.1 (hspec piece hp).2.2.1
    have hfilter : (parseTagChars cs).filter (fun piece => piece != []) = parseTagChars cs := by
      rw [List.filter_eq_self]
      intro piece hp
      simpa using (hspec piece hp).1
    show ((splitCharsAux ',' (joinChars ',' (parseTagChars cs)) []).map trimChars).filter
      (fun piece => piece != []) = parseTagChars cs
    rw [hsplit, hmap, hfilter]

theorem mk_bne_empty (cs : List Char) : (String.mk cs != "") = (cs != []) := by
  rw [Bool.eq_iff_iff]
  simp [String.ext_iff]

/-- The parser on strings packs the pieces computed on characters. -/
theorem parseTags_eq (s : String) : parseTags s = (parseTagChars s.data).map String.mk := by
  simp only [parseTags, jsSplit, parseTagChars, List.map_map, List.filter_map]
  congr 1
  apply List.filter_congr
  intro piece _
  simp only [Function.comp_apply, truthy, jsTrim]
  exact mk_bne_empty _

theorem jsJoin_map_mk (pieces : List (List Char)) (sep : Char) :
    jsJoin (pieces.map String.mk) sep = String.mk (joinChars sep pieces) := by
  simp only [jsJoin, List.map_map]
  congr 2
  conv_rhs => rw [← List.map_id pieces]
  apply List.map_congr_left
  intro piece _
  rfl

theorem splitCharsAux_ne_nil (sep : Char) (cs cur : List Char) :
    splitCharsAux sep cs cur ≠ [] := by
  induction cs generalizing cur with
  | nil => simp [splitCharsAux]
  | cons c rest ih =>
    by_cases hc : (c == sep) = true
    · simp [splitCharsAux, hc]
    · simp only [splitCharsAux, hc, Bool.false_eq_true, if_false]
      exact ih (c :: cur)

theorem joinChars_cons (sep : Char) (piece : List Char) (rest : List (List Char))
    (hrest : rest ≠ []) :
    joinChars sep (piece :: rest) = piece ++ sep :: joinChars sep rest := by
  cases rest with
  | nil => exact absurd rfl hrest
  | cons next more => rfl

/-- Joining the pieces of a split with the separator gives the characters back. -/
theorem joinChars_split (sep : Char) (cs cur : List Char) :
    joinChars sep (splitCharsAux sep cs cur) = cur.reverse ++ cs := by
  induction cs generalizing cur with
  | nil => simp [splitCharsAux, joinChars]
  | cons c rest ih =>
    by_cases hc : c = sep
    · subst hc
      simp only [splitCharsAux, beq_self_eq_true, if_true]
      rw [joinChars_cons _ _ _ (splitCharsAux_ne_nil _ _ _), ih []]
      simp
    · have hb : (c == sep) = false := by simpa using hc
      simp only [splitCharsAux, hb, Bool.false_eq_true, if_false]
      rw [ih (c :: cur)]
      simp

/-- Trimming removes a run of white space at the front and a run of white space at the
end, and nothing else. -/
theorem trimChars_decompose (cs : List Char) :
    ∃ front back, cs = front ++ trimChars cs ++ back ∧
      (∀ c ∈ front, isJsWhitespace c = true) ∧ (∀ c ∈ back, isJsWhitespace c = true) := by
  refine ⟨cs.takeWhile isJsWhitespace,
    ((cs.dropWhile isJsWhitespace).reverse.takeWhile isJsWhitespace).reverse, ?_, ?_, ?_⟩
  · have h1 := List.takeWhile_append_dropWhile isJsWhitespace cs
    have h2 := List.takeWhile_append_dropWhile isJsWhitespace
      (cs.dropWhile isJsWhitespace).reverse
    have h3 : cs.dropWhile isJsWhitespace =
        trimChars cs ++
          ((cs.dropWhile isJsWhitespace).reverse.takeWhile isJsWhitespace).reverse := by
      have := congrArg List.reverse h2
      rw [List.reverse_append, List.reverse_reverse] at this
      exact this.symm
    rw [List.append_assoc, ← h3, h1]
  · intro c hc
    exact List.mem_takeWhile_imp hc
  · intro c hc
    rw [List.mem_reverse] at hc
    exact List.mem_takeWhile_imp hc

/-- C24: for every string `s`, the parsed list is exactly the list of the pieces of `s` cut
at the commas (the pieces joined with `,` give `s` back and none holds a comma), each with
its leading and trailing white space removed (and nothing else), without the pieces that
are empty after trimming, in their order: a tag is in the list if and only if it is the
non-empty trimming of a piece. The list holds no empty string, no tag that starts or ends
with white space and no tag containing a comma; parsing the list joined with `,` gives the
same list. The create handler and the update handler store this list for a `tags` field
`s`. -/
theorem parseTags_wellformed (s : String) :
    parseTags s = ((jsSplit s ',').map jsTrim).filter (fun t => decide (t ≠ "")) ∧
    jsJoin (jsSplit s ',') ',' = s ∧
    (∀ piece ∈ jsSplit s ',', ',' ∉ piece.data) ∧
    (∀ piece : String, ∃ front back,
      piece.data = front ++ (jsTrim piece).data ++ back ∧
      (∀ c ∈ front, isJsWhitespace c = true) ∧ (∀ c ∈ back, isJsWhitespace c = true) ∧
      (∀ c, (jsTrim piece).data.head? = some c → isJsWhitespace c = false) ∧
      (∀ c, (jsTrim piece).data.getLast? = some c → isJsWhitespace c = false)) ∧
    (∀ t, t ∈ parseTags s ↔ t ≠ "" ∧ ∃ piece ∈ jsSplit s ',', jsTrim piece = t) ∧
    (parseTags s).Sublist ((jsSplit s ',').map jsTrim) ∧
    (∀ t ∈ parseTags s,
      t ≠ "" ∧ (∀ c, t.data.head? = some c → isJsWhitespace c = false) ∧
      (∀ c, t.data.getLast? = some c → isJsWhitespace c = false) ∧ ',' ∉ t.data) ∧
    parseTags (jsJoin (parseTags s) ',') = parseTags s ∧
    (∀ (env : Env) (caller content : String) (body : PublicationCreate) (newId : ObjectId)
      (now : Nat), body.tags = some s →
      (newPublication env caller content body newId now).tags = parseTags s) ∧
    (∀ (env : Env) (pub : Publication) (body : PublicationUpdate) (now : Nat),
      body.tags = some s → (applyUpdate env pub body now).tags = parseTags s) := by
  have hdef : parseTags s =
      ((jsSplit s ',').map jsTrim).filter (fun t => decide (t ≠ "")) := by
    simp only [parseTags]
    apply List.filter_congr
    intro t _
    by_cases h : t = "" <;> simp [truthy, h]
  refine ⟨hdef, ?_, ?_, ?_, ?_, List.filter_sublist _, ?_, ?_, ?_, ?_⟩
  · rw [jsSplit, jsJoin_map_mk, joinChars_split]
    rfl
  · intro piece hp
    simp only [jsSplit, List.mem_map] at hp
    obtain ⟨raw, hraw, rfl⟩ := hp
    exact splitCharsAux_no_sep ',' s.data [] (List.not_mem_nil _) raw hraw
  · intro piece
    obtain ⟨front, back, h1, h2, h3⟩ := trimChars_decompose piece.data
    exact ⟨front, back, h1, h2, h3, (trimChars_spec piece.data).1,
      (trimChars_spec piece.data).2.1⟩
  · intro t
    rw [hdef, List.mem_filter, List.mem_map]
    constructor
    · rintro ⟨h, hne⟩
      exact ⟨by simpa using hne, h⟩
    · rintro ⟨hne, h⟩
      exact ⟨h, by simpa using hne⟩
  · intro t ht
    rw [parseTags_eq, List.mem_map] at ht
    obtain ⟨piece, hp, rfl⟩ := ht
    obtain ⟨h1, h2, h3, h4⟩ := parseTagChars_spec s.data piece hp
    refine ⟨?_, h2, h3, h4⟩
    intro h
    apply h1
    have := congrArg String.data h
    simpa using this
  · rw [parseTags_eq s, jsJoin_map_mk, parseTags_eq]
    show (parseTagChars (joinChars ',' (parseTagChars s.data))).map String.mk = _
    rw [parseTagChars_join]
  · intro env caller content body newId now hb
    by_cases hs : s = ""
    · subst hs
      simp only [newPublication, hb]
      decide
    · have : truthy s = true := by simpa [truthy] using hs
      simp only [newPublication, hb, this, if_true]
  · intro env pub body now hb
    obtain ⟨content, latitude, longitude, address, placeName, tags, category, visibility,
      files⟩ := body
    simp only at hb
    subst hb
    cases content <;> cases latitude <;> cases longitude <;> cases category <;>
      cases visibility <;> simp [applyUpdate]

/-- C24, at a concrete input: a tags string with spaces and an empty piece is parsed to the
three tags `a`, `b`, `c`, and parsing their join gives the same list. -/
theorem parseTags_wellformed_witness :
    parseTags " a, b ,,c " = ["a", "b", "c"] ∧
    parseTags (jsJoin (parseTags " a, b ,,c ") ',') = parseTags " a, b ,,c " :=
  ⟨(parseTags_wellformed " a, b ,,c ").1.trans (by decide),
   (parseTags_wellformed " a, b ,,c ").2.2.2.2.2.2.2.1⟩

end Center
